import Mathlib

/-!
Verification of the Terminology Evolution Tracker (a Gradio web app
`app.py` plus a library module `terminology_evolution_tracker.py`).

The development shallowly embeds the data model (evolution records,
snapshots, semantic shifts), the fixed demo store, the rendering pipeline
(text report and the four chart builders) and the two record producers.
Machine text is modelled as Lean `String` / `List Char`; the plotly float
coordinates that the timeline computes are modelled exactly as rationals;
the external language-model call and `json.loads` are modelled as an
oracle outcome and an abstract parser argument, since their results are
unconstrained free text.
-/

set_option maxRecDepth 100000

namespace TermTracker

/-- ASCII digit test, the character class `\d` of the source's regexes. -/
def isDigitC (c : Char) : Bool := decide ('0' ≤ c) && decide (c ≤ '9')

/-- The 26 uppercase/lowercase ASCII letter pairs. -/
def lowerTable : List (Char × Char) :=
  [('A', 'a'), ('B', 'b'), ('C', 'c'), ('D', 'd'), ('E', 'e'), ('F', 'f'),
   ('G', 'g'), ('H', 'h'), ('I', 'i'), ('J', 'j'), ('K', 'k'), ('L', 'l'),
   ('M', 'm'), ('N', 'n'), ('O', 'o'), ('P', 'p'), ('Q', 'q'), ('R', 'r'),
   ('S', 's'), ('T', 't'), ('U', 'u'), ('V', 'v'), ('W', 'w'), ('X', 'x'),
   ('Y', 'y'), ('Z', 'z')]

/-- ASCII lowercase conversion; models Python `str.lower` on the ASCII
letters that appear in the store keys and tier names (other characters,
including CJK, are left unchanged, as Python does). -/
def toLowerC (c : Char) : Char := (lowerTable.lookup c).getD c

/-- ASCII uppercase conversion; models Python `str.upper` likewise. -/
def toUpperC (c : Char) : Char :=
  if decide ('a' ≤ c) && decide (c ≤ 'z') then Char.ofNat (c.toNat - 32) else c

/-- Whitespace as stripped by Python `str.strip()` (ASCII part; the exotic
Unicode whitespace code points never occur in the embedded data). -/
def isSpaceC (c : Char) : Bool :=
  c = ' ' || c = '\t' || c = '\n' || c = '\x0b' || c = '\x0c' || c = '\r'

def lowerList (l : List Char) : List Char := l.map toLowerC

def lowerString (s : String) : String := String.mk (lowerList s.data)

def upperString (s : String) : String := String.mk (s.data.map toUpperC)

/-- Python `str.strip()` on the character list: drop whitespace from both
ends. -/
def trimList (l : List Char) : List Char :=
  ((l.dropWhile isSpaceC).reverse.dropWhile isSpaceC).reverse

def trimString (s : String) : String := String.mk (trimList s.data)

/-- Test `startsWithL hay pat`: `pat` is an initial segment of `hay`. -/
def startsWithL : List Char → List Char → Bool
  | _, [] => true
  | [], _ :: _ => false
  | c :: cs, d :: ds => c = d && startsWithL cs ds

/-- Python's `pat in hay` substring test. -/
def substrB (pat : List Char) : List Char → Bool
  | [] => startsWithL [] pat
  | c :: t => startsWithL (c :: t) pat || substrB pat t

/-- Substring test on `String`s. -/
def containsStr (hay pat : String) : Bool := substrB pat.data hay.data

/-- Number of positions of `hay` at which `pat` starts (occurrences may
overlap; used only as a verification observable on rendered reports).
Accumulator form. -/
def countSubAux (pat : List Char) (acc : Nat) : List Char → Nat
  | [] => acc + cond (startsWithL [] pat) 1 0
  | c :: t => countSubAux pat (acc + cond (startsWithL (c :: t) pat) 1 0) t

def countStr (hay pat : String) : Nat := countSubAux pat.data 0 hay.data

/-- Decimal value of a digit string. -/
def digitsToNat (ds : List Char) : Nat :=
  ds.foldl (fun n c => n * 10 + (c.toNat - '0'.toNat)) 0

/-- Test `run3 l`: `l` starts with at least three ASCII digits (`\d{3,4}` can
match here). -/
def run3 (l : List Char) : Bool := decide (3 ≤ (l.takeWhile isDigitC).length)

/-- Test `run4 l`: `l` starts with at least four ASCII digits (`\d{4}` can
match here). -/
def run4 (l : List Char) : Bool := decide (4 ≤ (l.takeWhile isDigitC).length)

/-- Value of the greedy `\d{3,4}` match at the head of `l` (up to four
leading digits). -/
def val4 (l : List Char) : Nat := digitsToNat ((l.takeWhile isDigitC).take 4)

/-- One attempt of the pattern `-?\d{3,4}` at the current position, with
Python's greedy/backtracking semantics: prefer consuming a minus sign,
then three to four digits, as many as possible. -/
def matchHere : List Char → Option Int
  | [] => none
  | c :: cs =>
    if c = '-' && run3 cs then some (-(val4 cs : Int))
    else if run3 (c :: cs) then some ((val4 (c :: cs) : Int))
    else none

/-- Model of `re.search(r'-?\d{3,4}', ·)`: leftmost match of the pattern. -/
def appFind : List Char → Option Int
  | [] => none
  | c :: cs =>
    match matchHere (c :: cs) with
    | some n => some n
    | none => appFind cs

/-- Model of `re.search(r'\d{4}', ·)`: leftmost position with four digits. -/
def libFind : List Char → Option Nat
  | [] => none
  | c :: cs => if run4 (c :: cs) then some (val4 (c :: cs)) else libFind cs

/-- No position of `l` starts a run of three consecutive digits. -/
def noRun3 : List Char → Bool
  | [] => true
  | c :: cs => !run3 (c :: cs) && noRun3 cs

/-- The decade-keyword mapping of `extract_year`, checked against the
lowercased label in the dict's insertion order, with default 2000. -/
def extractYearKeyword (low : List Char) : Int :=
  if substrB "pre-1900".data low then 1850
  else if substrB "1900".data low then 1925
  else if substrB "1950".data low then 1965
  else if substrB "1980".data low then 1990
  else if substrB "2000".data low then 2005
  else if substrB "2010".data low then 2015
  else if substrB "2020".data low then 2022
  else if substrB "present".data low then 2023
  else if substrB "bce".data low then -400
  else 2000

/-- Embeds `extract_year` of `app.py`: leftmost `-?\d{3,4}` match if any,
otherwise the fixed decade-keyword table on the lowercased label
(checked in the dict's insertion order), defaulting to 2000. -/
def extract_year (s : String) : Int :=
  match appFind s.data with
  | some n => n
  | none =>
    extractYearKeyword (lowerList s.data)

/-- The if/elif keyword chain of `_extract_year`. -/
def libYearKeyword (low : List Char) : Int :=
  if substrB "pre-1900".data low || substrB "19th century".data low then 1850
  else if substrB "1900".data low then 1925
  else if substrB "1950".data low then 1965
  else if substrB "1980".data low then 1990
  else if substrB "2000".data low then 2005
  else if substrB "2010".data low then 2015
  else if substrB "2020".data low || substrB "present".data low then 2022
  else 2000

/-- Embeds `TerminologyEvolutionTracker._extract_year` of the library module:
leftmost `\d{4}` match if any, otherwise an if/elif keyword chain,
defaulting to 2000. -/
def _extract_year (s : String) : Int :=
  match libFind s.data with
  | some n => (n : Int)
  | none => libYearKeyword (lowerList s.data)

example : extract_year "1950-1980" = 1950 := by decide
example : extract_year "Pre-1300" = -1300 := by decide
example : extract_year "6th-5th century BCE" = -400 := by decide
example : extract_year "present day" = 2023 := by decide
example : extract_year "19th century" = 2000 := by decide
example : extract_year "nothing" = 2000 := by decide
example : _extract_year "present day" = 2022 := by decide
example : _extract_year "Pre-1300" = 1300 := by decide
example : _extract_year "19th century" = 1850 := by decide
example : _extract_year "500 CE" = 2000 := by decide
example : extract_year "500 CE" = 500 := by decide


/-! ### Data model

The app's records are Python dicts read with `.get` and a default, so every
field is optional; a missing dict key is `none`.  Field order follows the
dict literals of `DEMO_DATA`. -/

/-- A snapshot of a term during one historical period (spec: `Snapshot`). -/
structure Snapshot where
  term : Option String := none
  period : Option String := none
  year_start : Option Int := none
  year_end : Option Int := none
  definition : Option String := none
  definition_zh : Option String := none
  usage_context : Option String := none
  frequency : Option String := none
  domain : Option String := none
  status : Option String := none
  example_sentence : Option String := none
  notes : Option String := none
deriving DecidableEq

/-- A recorded semantic shift (spec: `SemanticShift`). -/
structure Shift where
  term : Option String := none
  shift_type : Option String := none
  period_from : Option String := none
  period_to : Option String := none
  meaning_before : Option String := none
  meaning_after : Option String := none
  explanation : Option String := none
  explanation_zh : Option String := none
  evidence : Option String := none
deriving DecidableEq

/-- A complete evolution record as the app passes it around
(spec: `EvolutionRecord`). -/
structure Rec where
  term : Option String := none
  domain : Option String := none
  origin_period : Option String := none
  origin_language : Option String := none
  etymology : Option String := none
  etymology_zh : Option String := none
  snapshots : Option (List Snapshot) := none
  semantic_shifts : Option (List Shift) := none
  related_terms : Option (List String) := none
  current_status : Option String := none
  future_prediction : Option String := none
  future_prediction_zh : Option String := none
deriving DecidableEq

/-- The record with every field missing: the Python empty dict. -/
def emptyRec : Rec := {}

/-- The snapshot with every field missing. -/
def emptySnap : Snapshot := {}

/-- The `DEMO_DATA['buddha']` record of `app.py`. -/
def buddhaRec : Rec := {
  term := some "Buddha",
  domain := some "religion / philosophy",
  origin_period := some "6th-5th century BCE",
  origin_language := some "Sanskrit/Pali",
  etymology := some "From Sanskrit 'buddha' meaning 'awakened one' or 'enlightened one', derived from the root 'budh' (to awaken, to know).",
  etymology_zh := some "源自梵語「buddha」，意為「覺醒者」或「覺悟者」，來自詞根「budh」（覺醒、知曉）。",
  snapshots := some [
  { term := some "Buddha",
      period := some "6th-5th century BCE",
      year_start := some (-500),
      year_end := some (-400),
      definition := some "Title given to Siddhartha Gautama, the founder of Buddhism, meaning 'the awakened one'",
      definition_zh := some "授予悉達多·喬達摩的稱號，佛教創始人，意為「覺醒者」",
      usage_context := some "Religious/philosophical title",
      frequency := some "medium",
      domain := some "Buddhism",
      status := some "emerging",
      example_sentence := some "The Buddha taught the Middle Way.",
      notes := some "Originally referred specifically to Siddhartha Gautama" },
  { term := some "Buddha",
      period := some "1st-5th century CE",
      year_start := some 100,
      year_end := some 500,
      definition := some "Expanded to include multiple buddhas in Mahayana tradition; any fully enlightened being",
      definition_zh := some "在大乘佛教傳統中擴展為包括多位佛陀；任何完全覺悟的存在",
      usage_context := some "Religious worship and philosophy",
      frequency := some "high",
      domain := some "Buddhism",
      status := some "established",
      example_sentence := some "Amitabha Buddha presides over the Western Pure Land.",
      notes := some "Concept expanded with Mahayana Buddhism spread" },
  { term := some "Buddha",
      period := some "500-1500 CE",
      year_start := some 500,
      year_end := some 1500,
      definition := some "Central figure of worship across Asia; statues and temples built in his honor",
      definition_zh := some "亞洲各地崇拜的中心人物；為他建造雕像和寺廟",
      usage_context := some "Religious worship, art, architecture",
      frequency := some "high",
      domain := some "Buddhism/Culture",
      status := some "established",
      example_sentence := some "The giant Buddha statue was carved into the cliff.",
      notes := some "Buddhism spreads throughout Asia" },
  { term := some "Buddha",
      period := some "1800-1950",
      year_start := some 1800,
      year_end := some 1950,
      definition := some "Introduced to Western consciousness; studied academically; seen as philosopher",
      definition_zh := some "被引入西方意識；進行學術研究；被視為哲學家",
      usage_context := some "Academic study, orientalism, philosophy",
      frequency := some "medium",
      domain := some "Academia/Religion",
      status := some "evolving",
      example_sentence := some "Western scholars began translating Buddhist texts.",
      notes := some "Western academic interest grows" },
  { term := some "Buddha",
      period := some "1950-2000",
      year_start := some 1950,
      year_end := some 2000,
      definition := some "Symbol of peace, meditation, mindfulness; enters popular culture",
      definition_zh := some "和平、冥想、正念的象徵；進入流行文化",
      usage_context := some "Pop culture, meditation, wellness",
      frequency := some "high",
      domain := some "Culture/Wellness",
      status := some "evolving",
      example_sentence := some "She placed a Buddha statue in her meditation corner.",
      notes := some "Secularization and commercialization begins" },
  { term := some "Buddha",
      period := some "2000-Present",
      year_start := some 2000,
      year_end := some 2024,
      definition := some "Used in wellness industry, home decor, mindfulness apps; sometimes controversial commercialization",
      definition_zh := some "用於健康產業、家居裝飾、正念應用程式；商業化有時具爭議性",
      usage_context := some "Wellness, decor, apps, meditation",
      frequency := some "high",
      domain := some "Wellness/Commercial",
      status := some "evolving",
      example_sentence := some "The Buddha Bowl is a popular healthy meal option.",
      notes := some "Term used in secular contexts like 'Buddha bowl', 'Buddha belly'" }],
  semantic_shifts := some [
  { term := some "Buddha",
      shift_type := some "broadening",
      period_from := some "6th century BCE",
      period_to := some "5th century CE",
      meaning_before := some "Specific title for Siddhartha Gautama",
      meaning_after := some "Any fully enlightened being (multiple Buddhas)",
      explanation := some "Mahayana Buddhism expanded the concept to include countless Buddhas across time and space",
      explanation_zh := some "大乘佛教將概念擴展為包括跨越時空的無數佛陀",
      evidence := some "Amitabha Buddha, Medicine Buddha, future Maitreya Buddha" },
  { term := some "Buddha",
      shift_type := some "generalization",
      period_from := some "1950s",
      period_to := some "2000s",
      meaning_before := some "Religious/spiritual figure requiring reverence",
      meaning_after := some "Cultural symbol of peace, calm, and mindfulness",
      explanation := some "Secularization in Western culture transformed Buddha into a lifestyle symbol",
      explanation_zh := some "西方文化的世俗化將佛陀轉變為生活方式的象徵",
      evidence := some "Buddha statues as decor, 'Buddha bowl' food trend" },
  { term := some "Buddha",
      shift_type := some "metaphor",
      period_from := some "1990s",
      period_to := some "2020s",
      meaning_before := some "Enlightened spiritual teacher",
      meaning_after := some "Adjective meaning calm, peaceful, or wise",
      explanation := some "Used metaphorically to describe a state of calm or wisdom",
      explanation_zh := some "隱喻性地用於描述平靜或智慧的狀態",
      evidence := some "'He's so Buddha about everything' (meaning calm/zen)" }],
  related_terms := some ["Buddhism", "Dharma", "Sangha", "Nirvana", "Enlightenment", "Zen", "Mindfulness", "Meditation"],
  current_status := some "Highly active in both religious and secular contexts; experiencing tension between sacred and commercial uses",
  future_prediction := some "Likely to continue expanding in wellness/secular contexts while maintaining religious significance; may see pushback against commercialization",
  future_prediction_zh := some "可能繼續在健康/世俗語境中擴展，同時保持宗教意義；可能會看到對商業化的反對"
}

/-- The `DEMO_DATA['computer']` record of `app.py`. -/
def computerRec : Rec := {
  term := some "Computer",
  domain := some "technology",
  origin_period := some "1640s",
  origin_language := some "English (from Latin 'computare')",
  etymology := some "From Latin 'computare' meaning 'to count, sum up, reckon together'. Originally referred to a person who computes.",
  etymology_zh := some "源自拉丁語「computare」，意為「計算、總結、一起計算」。最初指進行計算的人。",
  snapshots := some [
  { term := some "Computer",
      period := some "1640-1900",
      year_start := some 1640,
      year_end := some 1900,
      definition := some "A person who performs mathematical calculations",
      definition_zh := some "進行數學計算的人",
      usage_context := some "Professional occupation",
      frequency := some "low",
      domain := some "Mathematics/Business",
      status := some "established",
      example_sentence := some "The computers worked long hours calculating astronomical tables.",
      notes := some "Originally a job title, not a machine" },
  { term := some "Computer",
      period := some "1900-1945",
      year_start := some 1900,
      year_end := some 1945,
      definition := some "Both human calculators and early mechanical calculating machines",
      definition_zh := some "人類計算員和早期機械計算機器",
      usage_context := some "Business, military, science",
      frequency := some "medium",
      domain := some "Technology/Military",
      status := some "evolving",
      example_sentence := some "The women computers at NASA calculated rocket trajectories.",
      notes := some "Transition period - term applies to both humans and machines" },
  { term := some "Computer",
      period := some "1945-1980",
      year_start := some 1945,
      year_end := some 1980,
      definition := some "Large electronic calculating machine; mainframe systems",
      definition_zh := some "大型電子計算機器；主機系統",
      usage_context := some "Business, government, universities",
      frequency := some "high",
      domain := some "Technology",
      status := some "established",
      example_sentence := some "The company's computer filled an entire room.",
      notes := some "Human meaning becomes obsolete; machine meaning dominates" },
  { term := some "Computer",
      period := some "1980-2000",
      year_start := some 1980,
      year_end := some 2000,
      definition := some "Personal computing device; desktop and laptop machines",
      definition_zh := some "個人計算設備；桌上型和筆記型電腦",
      usage_context := some "Home, office, school",
      frequency := some "high",
      domain := some "Consumer Technology",
      status := some "established",
      example_sentence := some "Every household should have a computer.",
      notes := some "Personal computer revolution" },
  { term := some "Computer",
      period := some "2000-Present",
      year_start := some 2000,
      year_end := some 2024,
      definition := some "Any programmable electronic device; includes smartphones, tablets, embedded systems",
      definition_zh := some "任何可程式化的電子設備；包括智慧手機、平板電腦、嵌入式系統",
      usage_context := some "Ubiquitous in daily life",
      frequency := some "high",
      domain := some "Technology/Daily Life",
      status := some "established",
      example_sentence := some "Your phone is a computer more powerful than what sent humans to the moon.",
      notes := some "Term has broadened to include many device types" }],
  semantic_shifts := some [
  { term := some "Computer",
      shift_type := some "narrowing",
      period_from := some "1640s",
      period_to := some "1950s",
      meaning_before := some "Person who computes (human calculator)",
      meaning_after := some "Electronic calculating machine only",
      explanation := some "As machines took over computing tasks, the human meaning became obsolete",
      explanation_zh := some "隨著機器接管計算任務，人類的含義變得過時",
      evidence := some "NASA 'computers' (human) replaced by electronic computers" },
  { term := some "Computer",
      shift_type := some "broadening",
      period_from := some "1980s",
      period_to := some "2020s",
      meaning_before := some "Large room-sized calculating machine",
      meaning_after := some "Any programmable device including phones and tablets",
      explanation := some "Miniaturization led to computers being embedded everywhere",
      explanation_zh := some "微型化導致計算機無處不在",
      evidence := some "Smartphones, smartwatches, IoT devices all called computers" }],
  related_terms := some ["Computing", "Calculator", "Processor", "PC", "Laptop", "Server", "Mainframe"],
  current_status := some "Ubiquitous term; sometimes considered old-fashioned compared to 'device' for phones/tablets",
  future_prediction := some "May further broaden to include AI systems, or narrow as 'traditional computers' versus AI agents",
  future_prediction_zh := some "可能進一步擴展到包括 AI 系統，或縮小為「傳統計算機」與 AI 代理的對比"
}

/-- The `DEMO_DATA['virus']` record of `app.py`. -/
def virusRec : Rec := {
  term := some "Virus",
  domain := some "medicine / technology",
  origin_period := some "1590s",
  origin_language := some "Latin",
  etymology := some "From Latin 'virus' meaning 'poison, sap of plants, slimy liquid'. Originally referred to any poisonous substance.",
  etymology_zh := some "源自拉丁語「virus」，意為「毒藥、植物汁液、黏液」。最初指任何有毒物質。",
  snapshots := some [
  { term := some "Virus",
      period := some "1590-1890",
      year_start := some 1590,
      year_end := some 1890,
      definition := some "Venom, poison, or any noxious substance causing disease",
      definition_zh := some "毒液、毒藥或任何引起疾病的有害物質",
      usage_context := some "Medical/scientific discourse",
      frequency := some "low",
      domain := some "Medicine",
      status := some "established",
      example_sentence := some "The virus in the wound caused infection.",
      notes := some "Pre-germ theory understanding" },
  { term := some "Virus",
      period := some "1890-1950",
      year_start := some 1890,
      year_end := some 1950,
      definition := some "Submicroscopic infectious agent smaller than bacteria",
      definition_zh := some "比細菌更小的亞顯微感染性病原體",
      usage_context := some "Microbiology, medicine",
      frequency := some "medium",
      domain := some "Medicine/Science",
      status := some "evolving",
      example_sentence := some "The tobacco mosaic virus was the first to be identified.",
      notes := some "Scientific discovery of viral nature" },
  { term := some "Virus",
      period := some "1950-1985",
      year_start := some 1950,
      year_end := some 1985,
      definition := some "Infectious agent consisting of nucleic acid in protein coat; causes diseases",
      definition_zh := some "由蛋白質外殼包裹的核酸組成的感染性病原體；引起疾病",
      usage_context := some "Medicine, public health",
      frequency := some "high",
      domain := some "Medicine",
      status := some "established",
      example_sentence := some "The polio virus was nearly eradicated by vaccines.",
      notes := some "Modern understanding of viral structure" },
  { term := some "Virus",
      period := some "1985-2000",
      year_start := some 1985,
      year_end := some 2000,
      definition := some "1) Biological pathogen 2) Malicious computer program that self-replicates",
      definition_zh := some "1) 生物病原體 2) 自我複製的惡意電腦程式",
      usage_context := some "Medicine and computing",
      frequency := some "high",
      domain := some "Medicine/Technology",
      status := some "evolving",
      example_sentence := some "My computer caught a virus from that email attachment.",
      notes := some "Metaphorical extension to computing" },
  { term := some "Virus",
      period := some "2000-Present",
      year_start := some 2000,
      year_end := some 2024,
      definition := some "1) Biological pathogen 2) Computer malware 3) 'Viral' content that spreads rapidly online",
      definition_zh := some "1) 生物病原體 2) 電腦惡意軟體 3) 在網上迅速傳播的「病毒式」內容",
      usage_context := some "Medicine, tech, social media",
      frequency := some "high",
      domain := some "Multiple domains",
      status := some "established",
      example_sentence := some "That video went viral overnight.",
      notes := some "'Viral' became common adjective for internet phenomena" }],
  semantic_shifts := some [
  { term := some "Virus",
      shift_type := some "narrowing",
      period_from := some "1590s",
      period_to := some "1900s",
      meaning_before := some "Any poison or noxious substance",
      meaning_after := some "Specific type of submicroscopic pathogen",
      explanation := some "Scientific discovery narrowed the meaning to a specific biological entity",
      explanation_zh := some "科學發現將含義縮小到特定的生物實體",
      evidence := some "Discovery of viruses as distinct from bacteria" },
  { term := some "Virus",
      shift_type := some "metaphor",
      period_from := some "1983",
      period_to := some "1990s",
      meaning_before := some "Biological infectious agent only",
      meaning_after := some "Extended to self-replicating computer programs",
      explanation := some "The behavior of malicious programs mimicked viral spread",
      explanation_zh := some "惡意程式的行為模仿了病毒的傳播",
      evidence := some "First computer virus (Elk Cloner) named using biological metaphor" },
  { term := some "Virus",
      shift_type := some "broadening",
      period_from := some "2000s",
      period_to := some "2010s",
      meaning_before := some "Harmful entity (biological or digital)",
      meaning_after := some "Any rapidly spreading phenomenon (including positive ones)",
      explanation := some "'Going viral' can be positive - rapid spread of popular content",
      explanation_zh := some "「病毒式傳播」可以是正面的——流行內容的快速傳播",
      evidence := some "Viral marketing, viral videos, viral trends" }],
  related_terms := some ["Viral", "Malware", "Pathogen", "Infection", "Contagion", "Epidemic", "Pandemic"],
  current_status := some "Multi-domain term with biological, computing, and social media meanings all active",
  future_prediction := some "May develop further meanings related to AI or digital phenomena; biological meaning reinforced post-COVID",
  future_prediction_zh := some "可能發展出與 AI 或數位現象相關的更多含義；生物學含義在後疫情時代得到加強"
}

/-- The `DEMO_DATA['cloud']` record of `app.py`. -/
def cloudRec : Rec := {
  term := some "Cloud",
  domain := some "technology",
  origin_period := some "Old English",
  origin_language := some "Old English (clūd)",
  etymology := some "From Old English 'clūd' originally meaning 'rock, hill' then shifting to 'mass of water vapor'. Technology meaning emerged in 1990s.",
  etymology_zh := some "源自古英語「clūd」，最初意為「岩石、山丘」，後轉變為「水蒸氣團」。科技含義於1990年代出現。",
  snapshots := some [
  { term := some "Cloud",
      period := some "Pre-1300",
      year_start := some 700,
      year_end := some 1300,
      definition := some "Rock or hill; mass of earth",
      definition_zh := some "岩石或山丘；土塊",
      usage_context := some "Geographic description",
      frequency := some "medium",
      domain := some "General",
      status := some "archaic",
      example_sentence := some "The shepherd climbed the cloud.",
      notes := some "Original meaning now completely obsolete" },
  { term := some "Cloud",
      period := some "1300-1990",
      year_start := some 1300,
      year_end := some 1990,
      definition := some "Visible mass of water droplets suspended in atmosphere",
      definition_zh := some "懸浮在大氣中的可見水滴團",
      usage_context := some "Weather, poetry, general usage",
      frequency := some "high",
      domain := some "Meteorology/General",
      status := some "established",
      example_sentence := some "Dark clouds gathered on the horizon.",
      notes := some "Primary meaning for centuries" },
  { term := some "Cloud",
      period := some "1990-2006",
      year_start := some 1990,
      year_end := some 2006,
      definition := some "1) Atmospheric phenomenon 2) Network diagram symbol for the internet",
      definition_zh := some "1) 大氣現象 2) 網路圖中代表網際網路的符號",
      usage_context := some "Meteorology and technical diagrams",
      frequency := some "high",
      domain := some "Weather/Technology",
      status := some "evolving",
      example_sentence := some "The cloud symbol represents external network connections.",
      notes := some "Cloud used in network diagrams to represent 'somewhere else'" },
  { term := some "Cloud",
      period := some "2006-Present",
      year_start := some 2006,
      year_end := some 2024,
      definition := some "1) Atmospheric phenomenon 2) Remote computing services accessed via internet",
      definition_zh := some "1) 大氣現象 2) 通過網際網路訪問的遠端計算服務",
      usage_context := some "Technology, business, daily life",
      frequency := some "high",
      domain := some "Technology",
      status := some "established",
      example_sentence := some "Store your files in the cloud for easy access anywhere.",
      notes := some "Amazon Web Services launched 2006; term became mainstream" }],
  semantic_shifts := some [
  { term := some "Cloud",
      shift_type := some "metaphor",
      period_from := some "Pre-1300",
      period_to := some "1300s",
      meaning_before := some "Rock or hill (solid earth mass)",
      meaning_after := some "Mass of water vapor in sky",
      explanation := some "Transferred from earthly mass to sky mass based on visual similarity",
      explanation_zh := some "基於視覺相似性，從地面的土塊轉移到天空的雲團",
      evidence := some "Historical etymology documented in OED" },
  { term := some "Cloud",
      shift_type := some "metaphor",
      period_from := some "1990s",
      period_to := some "2000s",
      meaning_before := some "Only atmospheric water vapor",
      meaning_after := some "Remote computing infrastructure (invisible, 'up there')",
      explanation := some "The amorphous, 'somewhere up there' nature of clouds mapped onto remote servers",
      explanation_zh := some "雲的模糊、「在某處上方」的特性被映射到遠端服務器上",
      evidence := some "Network engineers used cloud symbol; term stuck" }],
  related_terms := some ["Cloud computing", "SaaS", "IaaS", "PaaS", "Server", "AWS", "Azure", "Cloudscape"],
  current_status := some "Dual meaning fully established; context usually clarifies which meaning intended",
  future_prediction := some "Technology meaning may become primary as cloud computing becomes ubiquitous; new compounds likely (cloud AI, cloud gaming)",
  future_prediction_zh := some "隨著雲計算變得無處不在，科技含義可能成為主要含義；可能出現新的複合詞（雲端 AI、雲端遊戲）"
}

/-- The `DEMO_DATA['mouse']` record of `app.py`. -/
def mouseRec : Rec := {
  term := some "Mouse",
  domain := some "technology",
  origin_period := some "Old English",
  origin_language := some "Old English (mūs)",
  etymology := some "From Old English 'mūs', from Proto-Germanic *mūs, from PIE root *mus- meaning 'mouse'. Computer meaning from 1965.",
  etymology_zh := some "源自古英語「mūs」，來自原始日耳曼語 *mūs，來自原始印歐語詞根 *mus-，意為「老鼠」。電腦含義始於1965年。",
  snapshots := some [
  { term := some "Mouse",
      period := some "Old English-1965",
      year_start := some 700,
      year_end := some 1965,
      definition := some "Small rodent with pointed snout and long tail",
      definition_zh := some "有尖嘴和長尾巴的小型齧齒動物",
      usage_context := some "General, zoology",
      frequency := some "high",
      domain := some "General/Biology",
      status := some "established",
      example_sentence := some "The cat caught a mouse in the barn.",
      notes := some "Sole meaning for centuries" },
  { term := some "Mouse",
      period := some "1965-1984",
      year_start := some 1965,
      year_end := some 1984,
      definition := some "1) Rodent 2) Experimental pointing device for computers",
      definition_zh := some "1) 齧齒動物 2) 電腦實驗性指向設備",
      usage_context := some "Research labs, early computing",
      frequency := some "low",
      domain := some "Technology (specialized)",
      status := some "emerging",
      example_sentence := some "Engelbart demonstrated the mouse at the 1968 conference.",
      notes := some "Invented by Douglas Engelbart; named for resemblance to rodent" },
  { term := some "Mouse",
      period := some "1984-2000",
      year_start := some 1984,
      year_end := some 2000,
      definition := some "1) Rodent 2) Hand-held computer input device with buttons",
      definition_zh := some "1) 齧齒動物 2) 帶按鈕的手持電腦輸入設備",
      usage_context := some "Personal computing, offices",
      frequency := some "high",
      domain := some "Technology",
      status := some "established",
      example_sentence := some "Click the left mouse button to select.",
      notes := some "Apple Macintosh popularized the mouse in 1984" },
  { term := some "Mouse",
      period := some "2000-Present",
      year_start := some 2000,
      year_end := some 2024,
      definition := some "1) Rodent 2) Computer pointing device (now wireless, optical, or gaming variants)",
      definition_zh := some "1) 齧齒動物 2) 電腦指向設備（現有無線、光學或遊戲版本）",
      usage_context := some "Computing, gaming",
      frequency := some "high",
      domain := some "Technology",
      status := some "established",
      example_sentence := some "This gaming mouse has 12 programmable buttons.",
      notes := some "Plural 'mice' or 'mouses' both acceptable for devices" }],
  semantic_shifts := some [
  { term := some "Mouse",
      shift_type := some "metaphor",
      period_from := some "1965",
      period_to := some "1984",
      meaning_before := some "Only a small rodent",
      meaning_after := some "Also a computer input device",
      explanation := some "Named for visual resemblance - small body with a 'tail' (cord)",
      explanation_zh := some "因視覺相似性而命名——小型機身帶有「尾巴」（電線）",
      evidence := some "Douglas Engelbart's naming; cord resembled mouse tail" }],
  related_terms := some ["Trackpad", "Touchpad", "Pointer", "Cursor", "Click", "Scroll", "Trackball"],
  current_status := some "Both meanings fully active; context always clear",
  future_prediction := some "Computer meaning may decline as touchscreens and gesture control increase; may become retro/specialized term",
  future_prediction_zh := some "隨著觸控螢幕和手勢控制增加，電腦含義可能下降；可能成為復古/專業術語"
}

/-- The fixed demo store `DEMO_DATA` of `app.py` (insertion order kept). -/
def DEMO_DATA : List (String × Rec) :=
  [("buddha", buddhaRec), ("computer", computerRec), ("virus", virusRec),
   ("cloud", cloudRec), ("mouse", mouseRec)]

example : (buddhaRec.snapshots.getD []).length = 6 := by decide
example : (DEMO_DATA.lookup "buddha") = some buddhaRec := rfl
example : (DEMO_DATA.lookup "zebra") = none := rfl

/-! ### Renderer: chart payloads

Each plotly figure is modelled by the data the source computes into it
(positions, sizes, colors, labels).  Fixed presentation attributes
(line widths, template names, axis styling) carry no record-dependent
information and are not modelled.  Python float arithmetic on these
small dyadic values is exact, so rationals model it faithfully. -/

/-- One period bar/marker of the evolution timeline. -/
structure TlBar where
  year_start : Int
  year_end : Int
  year_mid : Rat
  color : String
  size : Nat
  period : String
deriving DecidableEq

/-- One semantic-shift arrow of the evolution timeline. -/
structure TlShift where
  y_pos : Rat
  color : String
  year_from : Int
  year_to : Int
  shift_type : String
deriving DecidableEq

/-- Payload of the timeline figure. -/
structure TimelineData where
  title : String
  bars : List TlBar
  shifts : List TlShift
deriving DecidableEq

/-- Payload of the status-distribution pie. -/
structure PieData where
  title : String
  labels : List String
  values : List Nat
  colors : List String
deriving DecidableEq

/-- Payload of the frequency-over-time line. -/
structure FreqData where
  title : String
  periods : List String
  levels : List Nat
deriving DecidableEq

/-- Payload of the semantic-shift Sankey diagram. -/
structure SankeyData where
  title : String
  labels : List String
  sources : List Nat
  targets : List Nat
  values : List Nat
  colors : List String
deriving DecidableEq

/-- A figure handed to the UI: `Fig.empty` is a bare `go.Figure()`,
`Fig.annot t` is `go.Figure().add_annotation(text=t, showarrow=False)`,
the rest carry a chart payload. -/
inductive Fig where
  | empty
  | annot (text : String)
  | timeline (d : TimelineData)
  | pie (d : PieData)
  | freqLine (d : FreqData)
  | sankey (d : SankeyData)
deriving DecidableEq

/-- Table `status_colors.get(status, "#3b82f6")` of `create_timeline_chart`. -/
def statusColor (s : String) : String :=
  if s = "emerging" then "#22c55e"
  else if s = "established" then "#3b82f6"
  else if s = "evolving" then "#f59e0b"
  else if s = "deprecated" then "#ef4444"
  else if s = "archaic" then "#6b7280"
  else if s = "revived" then "#8b5cf6"
  else "#3b82f6"

/-- Table `freq_sizes.get(freq, 30)` of `create_timeline_chart`. -/
def freqSize (s : String) : Nat :=
  if s = "high" then 45
  else if s = "medium" then 35
  else if s = "low" then 25
  else if s = "rare" then 18
  else 30

/-- Table `shift_colors.get(shift_type, "#6b7280")` of `create_timeline_chart`. -/
def shiftColor (s : String) : String :=
  if s = "narrowing" then "#ef4444"
  else if s = "broadening" then "#22c55e"
  else if s = "metaphor" then "#8b5cf6"
  else if s = "metonymy" then "#06b6d4"
  else if s = "amelioration" then "#3b82f6"
  else if s = "pejoration" then "#f59e0b"
  else if s = "specialization" then "#ec4899"
  else if s = "generalization" then "#14b8a6"
  else "#6b7280"

/-- Table `colors.get(s, "#888")` of `create_status_pie` (applied to the raw,
non-lowercased status). -/
def pieColor (s : String) : String :=
  if s = "emerging" then "#22c55e"
  else if s = "established" then "#3b82f6"
  else if s = "evolving" then "#f59e0b"
  else if s = "deprecated" then "#ef4444"
  else if s = "archaic" then "#6b7280"
  else if s = "revived" then "#8b5cf6"
  else "#888"

/-- Table `freq_map.get(·, 2)` of `create_frequency_chart`: the frequency-tier
to numeric-level table with its fallback. -/
def freqLevelRaw (s : String) : Nat :=
  if s = "high" then 4
  else if s = "medium" then 3
  else if s = "low" then 2
  else if s = "rare" then 1
  else 2

/-- Table `shift_colors.get(·, "rgba(128,128,128,0.5)")` of `create_shift_sankey`. -/
def sankeyColor (s : String) : String :=
  if s = "narrowing" then "rgba(239, 68, 68, 0.6)"
  else if s = "broadening" then "rgba(34, 197, 94, 0.6)"
  else if s = "metaphor" then "rgba(139, 92, 246, 0.6)"
  else if s = "metonymy" then "rgba(6, 182, 212, 0.6)"
  else if s = "amelioration" then "rgba(59, 130, 246, 0.6)"
  else if s = "pejoration" then "rgba(245, 158, 11, 0.6)"
  else if s = "specialization" then "rgba(236, 72, 153, 0.6)"
  else if s = "generalization" then "rgba(20, 184, 166, 0.6)"
  else "rgba(128,128,128,0.5)"

/-- Embeds `create_timeline_chart` of `app.py`.  A record without a `snapshots`
key (in particular the empty dict, which is also falsy) gets the
"No data available" placeholder; otherwise each snapshot becomes a bar
whose midpoint, color and size are derived from its fields, and each
semantic shift becomes an arrow at `0.4 - 0.2*i` whose endpoint years
come from `extract_year`. -/
def create_timeline_chart (data : Rec) : Fig :=
  match data.snapshots with
  | none => Fig.annot "No data available"
  | some snaps =>
    let bars := snaps.map (fun snap =>
      let ys := snap.year_start.getD 1900
      let ye := snap.year_end.getD 2000
      { year_start := ys, year_end := ye,
        year_mid := ((ys : Rat) + (ye : Rat)) / 2,
        color := statusColor (lowerString (snap.status.getD "established")),
        size := freqSize (lowerString (snap.frequency.getD "medium")),
        period := snap.period.getD "" : TlBar })
    let shifts := ((data.semantic_shifts.getD []).enum).map (fun p =>
      let st := lowerString (p.2.shift_type.getD "")
      { y_pos := (2 : Rat) / 5 - (p.1 : Rat) / 5,
        color := shiftColor st,
        year_from := extract_year (p.2.period_from.getD "1900"),
        year_to := extract_year (p.2.period_to.getD "2000"),
        shift_type := st : TlShift })
    Fig.timeline { title := "📈 Evolution Timeline: " ++ data.term.getD "Term",
                   bars := bars, shifts := shifts }

/-- The insertion-ordered counting dict `status_counts` of
`create_status_pie`: increment an existing key in place, append a new
one. -/
def bumpCount (acc : List (String × Nat)) (s : String) : List (String × Nat) :=
  if (acc.lookup s).isSome then
    acc.map (fun p => if p.1 = s then (p.1, p.2 + 1) else p)
  else acc ++ [(s, 1)]

/-- Embeds `create_status_pie` of `app.py`. -/
def create_status_pie (data : Rec) : Fig :=
  match data.snapshots with
  | none => Fig.annot "No data"
  | some snaps =>
    let counts := snaps.foldl (fun acc snap => bumpCount acc (snap.status.getD "unknown")) []
    Fig.pie { title := "📊 Status Distribution 狀態分布",
              labels := counts.map (·.1),
              values := counts.map (·.2),
              colors := counts.map (fun p => pieColor p.1) }

/-- Embeds `create_frequency_chart` of `app.py`: one numeric level per snapshot,
through `freqLevelRaw` on the lowercased tier (default "medium"). -/
def create_frequency_chart (data : Rec) : Fig :=
  match data.snapshots with
  | none => Fig.annot "No data"
  | some snaps =>
    Fig.freqLine { title := "📈 Usage Frequency Over Time 使用頻率趨勢",
                   periods := snaps.map (fun s => s.period.getD ""),
                   levels := snaps.map (fun s =>
                     freqLevelRaw (lowerString (s.frequency.getD "medium"))) }

/-- Python `labels.index(x)` for an element known to be present (list
index of the first occurrence). -/
def idxOfStr (x : String) : List String → Nat
  | [] => 0
  | y :: ys => if y = x then 0 else idxOfStr x ys + 1

/-- First 30 code points, the Python slice `[:30]`. -/
def take30 (s : String) : String := String.mk (s.data.take 30)

/-- Accumulator of the Sankey construction loop. -/
structure SankeyAcc where
  labels : List String
  sources : List Nat
  targets : List Nat
  values : List Nat
  colors : List String

/-- Embeds `create_shift_sankey` of `app.py`: nodes are the 30-character
truncations of before/after meanings, deduplicated by first occurrence;
each shift is a unit-value link colored by its lowercased type. -/
def create_shift_sankey (data : Rec) : Fig :=
  match data.semantic_shifts with
  | none => Fig.annot "No semantic shifts found"
  | some [] => Fig.annot "No semantic shifts recorded"
  | some shifts =>
    let acc := shifts.foldl (fun (acc : SankeyAcc) sh =>
      let before := take30 (sh.meaning_before.getD "Unknown")
      let after := take30 (sh.meaning_after.getD "Unknown")
      let stype := sh.shift_type.getD "unknown"
      let labels1 := if before ∈ acc.labels then acc.labels else acc.labels ++ [before]
      let labels2 := if after ∈ labels1 then labels1 else labels1 ++ [after]
      { labels := labels2,
        sources := acc.sources ++ [idxOfStr before labels2],
        targets := acc.targets ++ [idxOfStr after labels2],
        values := acc.values ++ [1],
        colors := acc.colors ++ [sankeyColor (lowerString stype)] })
      ⟨[], [], [], [], []⟩
    Fig.sankey { title := "🔄 Semantic Shift Flow: " ++ data.term.getD "Term",
                 labels := acc.labels, sources := acc.sources,
                 targets := acc.targets, values := acc.values,
                 colors := acc.colors }

/-- A row of `n` copies of a character (Python `c * n`). -/
def charRow (c : Char) (n : Nat) : String := String.mk (List.replicate n c)

/-- Python `sep.join(lines)`. -/
def joinWith (sep : String) : List String → String
  | [] => ""
  | [x] => x
  | x :: y :: ys => x ++ sep ++ joinWith sep (y :: ys)

/-- The list of report lines that `format_report` joins with newlines;
one entry per `lines.append` of the source. -/
def reportLines (data : Rec) : List String :=
    let dash := charRow '-' 60
    [charRow '=' 60,
       "📚 TERMINOLOGY EVOLUTION REPORT 術語演變報告",
       charRow '=' 60,
       "",
       "📌 Term 術語: " ++ data.term.getD "N/A",
       "🏷️  Domain 領域: " ++ data.domain.getD "N/A",
       "🌍 Origin 起源: " ++ data.origin_period.getD "N/A" ++ " (" ++
         data.origin_language.getD "N/A" ++ ")",
       "",
       "📖 Etymology 詞源:",
       "   EN: " ++ data.etymology.getD "N/A",
       "   中: " ++ data.etymology_zh.getD "N/A",
       "",
       dash,
       "📅 HISTORICAL SNAPSHOTS 歷史快照",
       dash]
      ++ (((data.snapshots.getD []).enum).map (fun p =>
           ["\n【" ++ toString (p.1 + 1) ++ "】 " ++ p.2.period.getD "N/A",
            "    Status: " ++ p.2.status.getD "N/A" ++ " | Frequency: " ++
              p.2.frequency.getD "N/A",
            "    EN: " ++ p.2.definition.getD "N/A",
            "    中: " ++ p.2.definition_zh.getD "N/A"])).flatten
      ++ ["", dash, "🔄 SEMANTIC SHIFTS 語義轉變", dash]
      ++ (((data.semantic_shifts.getD []).enum).map (fun p =>
           ["\n【" ++ toString (p.1 + 1) ++ "】 " ++ upperString (p.2.shift_type.getD "N/A"),
            "    " ++ p.2.period_from.getD "" ++ " → " ++ p.2.period_to.getD "",
            "    Before: " ++ p.2.meaning_before.getD "N/A",
            "    After: " ++ p.2.meaning_after.getD "N/A",
            "    說明: " ++ p.2.explanation_zh.getD (p.2.explanation.getD "N/A")])).flatten
      ++ ["", dash, "🔮 CURRENT STATUS & PREDICTIONS", dash,
          "\nCurrent: " ++ data.current_status.getD "N/A",
          "\nPrediction: " ++ data.future_prediction.getD "N/A",
          "預測: " ++ data.future_prediction_zh.getD "N/A"]
      ++ (match data.related_terms with
          | some (t :: ts) => ["\n🔗 Related: " ++ joinWith ", " (t :: ts)]
          | _ => [])

/-- Embeds `format_report` of `app.py`.  The empty dict is falsy in Python, so a
record with no field at all yields the "No data available" text; every
other record renders the full multi-section report, substituting the
inline defaults (mostly "N/A") for missing fields. -/
def format_report (data : Rec) : String :=
  if data = emptyRec then "No data available" else joinWith "\n" (reportLines data)

example : format_report emptyRec = "No data available" := by decide
example : (reportLines buddhaRec).length = 15 + 24 + 4 + 15 + 7 + 1 := by decide
example : (reportLines buddhaRec).countP (fun l => containsStr l "| Frequency:") = 6 := by decide
example : ("🏷️  Domain 領域: religion / philosophy" : String) ∈ reportLines buddhaRec := by decide


/-! ### JSON output

`analyze_term` hands the UI `json.dumps(data, ensure_ascii=False, indent=2)`.
The serializer below models that library call on the fixed record schema:
keys in the literal's insertion order, two-space indentation, non-ASCII
left unescaped.  A missing (`none`) field is a missing dict key and is not
emitted. -/

/-- JSON string escaping (the embedded data contains none of these
characters, but `json.dumps` would escape them). -/
def jEsc (s : String) : String :=
  String.mk (s.data.flatMap (fun c =>
    if c = '"' then ['\\', '"']
    else if c = '\\' then ['\\', '\\']
    else if c = '\n' then ['\\', 'n']
    else if c = '\t' then ['\\', 't']
    else if c = '\r' then ['\\', 'r']
    else [c]))

def jStr (s : String) : String := "\"" ++ jEsc s ++ "\""

def jInt (n : Int) : String := toString n

/-- An object whose closing brace sits at indentation `pad`; `fields` are
already-rendered values. -/
def jObj (pad : String) (fields : List (String × String)) : String :=
  match fields with
  | [] => "\x7b\x7d"
  | _ => "\x7b\n" ++
      joinWith ",\n" (fields.map (fun p => pad ++ "  " ++ jStr p.1 ++ ": " ++ p.2)) ++
      "\n" ++ pad ++ "\x7d"

/-- An array whose closing bracket sits at indentation `pad`. -/
def jArr (pad : String) (items : List String) : String :=
  match items with
  | [] => "[]"
  | _ => "[\n" ++ joinWith ",\n" (items.map (fun it => pad ++ "  " ++ it)) ++
      "\n" ++ pad ++ "]"

def jFieldS (k : String) : Option String → List (String × String)
  | some v => [(k, jStr v)]
  | none => []

def jFieldI (k : String) : Option Int → List (String × String)
  | some v => [(k, jInt v)]
  | none => []

def snapJson (pad : String) (sn : Snapshot) : String :=
  jObj pad (jFieldS "term" sn.term ++ jFieldS "period" sn.period ++
    jFieldI "year_start" sn.year_start ++ jFieldI "year_end" sn.year_end ++
    jFieldS "definition" sn.definition ++ jFieldS "definition_zh" sn.definition_zh ++
    jFieldS "usage_context" sn.usage_context ++ jFieldS "frequency" sn.frequency ++
    jFieldS "domain" sn.domain ++ jFieldS "status" sn.status ++
    jFieldS "example_sentence" sn.example_sentence ++ jFieldS "notes" sn.notes)

def shiftJson (pad : String) (sh : Shift) : String :=
  jObj pad (jFieldS "term" sh.term ++ jFieldS "shift_type" sh.shift_type ++
    jFieldS "period_from" sh.period_from ++ jFieldS "period_to" sh.period_to ++
    jFieldS "meaning_before" sh.meaning_before ++ jFieldS "meaning_after" sh.meaning_after ++
    jFieldS "explanation" sh.explanation ++ jFieldS "explanation_zh" sh.explanation_zh ++
    jFieldS "evidence" sh.evidence)

/-- Model of `json.dumps(data, ensure_ascii=False, indent=2)` on a record. -/
def jsonDump (d : Rec) : String :=
  jObj "" (jFieldS "term" d.term ++ jFieldS "domain" d.domain ++
    jFieldS "origin_period" d.origin_period ++ jFieldS "origin_language" d.origin_language ++
    jFieldS "etymology" d.etymology ++ jFieldS "etymology_zh" d.etymology_zh ++
    (match d.snapshots with
     | some sns => [("snapshots", jArr "  " (sns.map (snapJson "    ")))]
     | none => []) ++
    (match d.semantic_shifts with
     | some shs => [("semantic_shifts", jArr "  " (shs.map (shiftJson "    ")))]
     | none => []) ++
    (match d.related_terms with
     | some ts => [("related_terms", jArr "  " (ts.map jStr))]
     | none => []) ++
    jFieldS "current_status" d.current_status ++
    jFieldS "future_prediction" d.future_prediction ++
    jFieldS "future_prediction_zh" d.future_prediction_zh)

/-! ### The record producers

The external text-generation call returns free text or raises; that is the
only information the code consumes, so the call is modelled by an oracle
`ServiceOutcome` and `json.loads` (which yields a structured record or
raises) by an abstract parser `String → Option Rec`. -/

/-- Outcome of one `client.chat.complete` call: the reply text, or an
exception during the call. -/
inductive ServiceOutcome where
  | ok (text : String)
  | err (msg : String)

/-- First index of character `c` in `l`. -/
def idxOfChar (c : Char) : List Char → Option Nat
  | [] => none
  | d :: t => if d = c then some 0 else (idxOfChar c t).map (· + 1)

/-- Opening and closing brace characters. -/
def lbraceC : Char := Char.ofNat 123
def rbraceC : Char := Char.ofNat 125

/-- Model of the brace regex search of both producers: from the first opening brace to
the last closing brace, provided the latter comes after the former
(leftmost start, greedy extent). -/
def braceExtract (text : String) : Option String :=
  match idxOfChar lbraceC text.data, idxOfChar rbraceC text.data.reverse with
  | some i, some jr =>
    let j := text.data.length - 1 - jr
    if i < j then some (String.mk ((text.data.drop i).take (j - i + 1))) else none
  | _, _ => none

/-- Embeds `SimpleTermTracker.analyze_term` of `app.py`: `none` without a client;
otherwise extract the brace-delimited block from the reply and parse it,
with every failure (exception from the call, no regex match, parse error)
caught and turned into `none`. -/
def SimpleTermTracker.analyze_term (client : Bool)
    (parse : String → Option Rec) (outcome : ServiceOutcome) : Option Rec :=
  if !client then none
  else
    match outcome with
    | .err _ => none
    | .ok text =>
      match braceExtract text with
      | some sub => parse sub
      | none => none

/-! ### The library tracker (`terminology_evolution_tracker.py`) -/

/-- The `TermEvolutionRecord` dataclass: built with `.get` defaults, so
every field is populated. -/
structure TermEvolutionRecord where
  term : String
  domain : String
  origin_period : String
  origin_language : String
  etymology : String
  etymology_zh : String
  snapshots : List Snapshot
  semantic_shifts : List Shift
  related_terms : List String
  current_status : String
  future_prediction : String
  future_prediction_zh : String
deriving DecidableEq

/-- Mutable state of a `TerminologyEvolutionTracker`: the in-process cache
`self.evolution_database`, an insertion-ordered dict. -/
structure TrackerState where
  evolution_database : List (String × TermEvolutionRecord)
deriving DecidableEq

/-- Python dict assignment `db[k] = v`: replace the value of an existing
key in place, append a new key at the end. -/
def assocUpdate : List (String × TermEvolutionRecord) → String → TermEvolutionRecord →
    List (String × TermEvolutionRecord)
  | [], k, v => [(k, v)]
  | (k1, v1) :: rest, k, v =>
    if k1 = k then (k1, v) :: rest else (k1, v1) :: assocUpdate rest k v

/-- The record construction of `analyze_term_evolution`: each field from
the parsed dict with its `.get` default. -/
def buildRecord (term domain : String) (data : Rec) : TermEvolutionRecord :=
  { term := data.term.getD term,
    domain := data.domain.getD domain,
    origin_period := data.origin_period.getD "Unknown",
    origin_language := data.origin_language.getD "Unknown",
    etymology := data.etymology.getD "",
    etymology_zh := data.etymology_zh.getD "",
    snapshots := data.snapshots.getD [],
    semantic_shifts := data.semantic_shifts.getD [],
    related_terms := data.related_terms.getD [],
    current_status := data.current_status.getD "",
    future_prediction := data.future_prediction.getD "",
    future_prediction_zh := data.future_prediction_zh.getD "" }

/-- Embeds `TerminologyEvolutionTracker.analyze_term_evolution`: on a successful
call, brace-match and parse of the reply, build the record, store it in
the cache under the term key and return it; on any failure return `None`
with the cache untouched. -/
def analyze_term_evolution (st : TrackerState) (parse : String → Option Rec)
    (outcome : ServiceOutcome) (term domain : String) :
    Option TermEvolutionRecord × TrackerState :=
  match outcome with
  | .err _ => (none, st)
  | .ok text =>
    match braceExtract text with
    | none => (none, st)
    | some sub =>
      match parse sub with
      | none => (none, st)
      | some data =>
        let record := buildRecord term domain data
        (some record, ⟨assocUpdate st.evolution_database term record⟩)

/-- Cache lookup, for stating the no-deletion invariant. -/
def dbLookup (st : TrackerState) (k : String) : Option TermEvolutionRecord :=
  st.evolution_database.lookup k

/-- One event of `generate_timeline_data`. -/
structure LibTlEvent where
  type : String
  year : Int
  period : String
  label : String
  description : String
deriving DecidableEq

/-- One period entry of `generate_timeline_data`. -/
structure LibTlPeriod where
  period : String
  year_start : Int
  year_end : Int
  definition : String
  status : String
  frequency : String
deriving DecidableEq

/-- One shift entry of `generate_timeline_data`. -/
structure LibTlShift where
  type : String
  period_from : String
  period_to : String
  meaning_before : String
  meaning_after : String
  explanation : String
deriving DecidableEq

/-- Payload of `generate_timeline_data`. -/
structure LibTimeline where
  term : String
  domain : String
  events : List LibTlEvent
  periods : List LibTlPeriod
  shifts : List LibTlShift
deriving DecidableEq

/-- Embeds `TerminologyEvolutionTracker.generate_timeline_data`: a pure function
of the record (it takes no look at the cache); the origin event's year
comes from `_extract_year`. -/
def generate_timeline_data (record : TermEvolutionRecord) : LibTimeline :=
  { term := record.term,
    domain := record.domain,
    events := [{ type := "origin",
                 year := _extract_year record.origin_period,
                 period := record.origin_period,
                 label := "Origin: " ++ record.origin_language,
                 description := record.etymology }],
    periods := record.snapshots.map (fun s =>
      { period := s.period.getD "",
        year_start := s.year_start.getD 0,
        year_end := s.year_end.getD 0,
        definition := s.definition.getD "",
        status := s.status.getD "",
        frequency := s.frequency.getD "" }),
    shifts := record.semantic_shifts.map (fun sh =>
      { type := sh.shift_type.getD "",
        period_from := sh.period_from.getD "",
        period_to := sh.period_to.getD "",
        meaning_before := sh.meaning_before.getD "",
        meaning_after := sh.meaning_after.getD "",
        explanation := sh.explanation.getD "" }) }

/-! ### The web app's main analysis function -/

/-- The six outputs of `analyze_term`: the text report, four figures
(timeline, status pie, frequency line, Sankey) and the serialized JSON. -/
abbrev AppResult := String × Fig × Fig × Fig × Fig × String

/-- The tuple returned for an empty (or whitespace-only) term. -/
def emptyTermOutput : AppResult :=
  ("❌ Please enter a term. 請輸入術語。", Fig.empty, Fig.empty, Fig.empty, Fig.empty, "")

/-- The tuple built from a found record (demo store or producer). -/
def successOutput (data : Rec) : AppResult :=
  (format_report data, create_timeline_chart data, create_status_pie data,
   create_frequency_chart data, create_shift_sankey data, jsonDump data)

/-- The "no data" tuple: the miss message names the raw term, the first
figure is an annotated placeholder, the rest are empty figures and an
empty JSON string. -/
def missOutput (term : String) : AppResult :=
  ("⚠️ No data for '" ++ term ++ "'. Try demo terms: buddha, computer, virus, cloud, mouse\n\n" ++
     "Or set your API key to analyze custom terms.",
   Fig.annot ("No data for '" ++ term ++ "'"),
   Fig.empty, Fig.empty, Fig.empty, "")

/-- The demo-store lookup `term_lower in DEMO_DATA` / `DEMO_DATA[term_lower]`. -/
def lookupDemo (t : String) : Option Rec := DEMO_DATA.lookup t

/-- Embeds `analyze_term` of `app.py`.  The global `tracker` (present exactly
when an API key was set and the client could be built) is passed
explicitly as an optional producer `api`; a producer reply that is the
empty dict is falsy in Python and is treated as a miss, like `None`. -/
def analyze_term (api : Option (String → String → Option Rec))
    (term domain : String) : AppResult :=
  if term = "" ∨ trimString term = "" then emptyTermOutput
  else
    match lookupDemo (lowerString (trimString term)) with
    | some data => successOutput data
    | none =>
      match api with
      | some f =>
        match f term domain with
        | some data => if data = emptyRec then missOutput term else successOutput data
        | none => missOutput term
      | none => missOutput term

example : analyze_term none "xyzzynotaterm" "general" = missOutput "xyzzynotaterm" := rfl
example : analyze_term none "buddha" "general" = successOutput buddhaRec := rfl
example : analyze_term none "  BuDdHa  " "general" = successOutput buddhaRec := rfl
example : analyze_term none "   " "general" = emptyTermOutput := rfl
example : braceExtract "say \x7b1: 2\x7d ok \x7d" = some "\x7b1: 2\x7d ok \x7d" := by decide
example : braceExtract "no braces" = none := by decide
example : braceExtract "\x7d then \x7b" = none := by decide


/-! ### Substring lemmas

Containment proofs on rendered reports go through the line structure: a
pattern inside one line is inside the joined report. -/

lemma startsWithL_append (a b pat : List Char) (h : startsWithL a pat = true) :
    startsWithL (a ++ b) pat = true := by
  induction pat generalizing a with
  | nil => cases a <;> simp [startsWithL]
  | cons d ds ih =>
    cases a with
    | nil => simp [startsWithL] at h
    | cons c cs =>
      simp only [startsWithL, Bool.and_eq_true] at h ⊢
      exact ⟨h.1, ih cs h.2⟩

lemma substrB_append_right (a b pat : List Char) (h : substrB pat b = true) :
    substrB pat (a ++ b) = true := by
  induction a with
  | nil => simpa using h
  | cons c cs ih =>
    simp only [List.cons_append, substrB, Bool.or_eq_true]
    exact Or.inr ih

lemma substrB_append_left (a b pat : List Char) (h : substrB pat a = true) :
    substrB pat (a ++ b) = true := by
  induction a with
  | nil =>
    cases pat with
    | nil => cases b <;> simp [substrB, startsWithL]
    | cons d ds => simp [substrB, startsWithL] at h
  | cons c cs ih =>
    simp only [substrB, Bool.or_eq_true] at h
    simp only [List.cons_append, substrB, Bool.or_eq_true]
    cases h with
    | inl h => exact Or.inl (startsWithL_append _ _ _ h)
    | inr h => exact Or.inr (ih h)

lemma string_append_data (s t : String) : (s ++ t).data = s.data ++ t.data := rfl

lemma substrB_joinWith (sep : String) (lines : List String) (l pat : String)
    (hmem : l ∈ lines) (hsub : substrB pat.data l.data = true) :
    substrB pat.data (joinWith sep lines).data = true := by
  induction lines with
  | nil => cases hmem
  | cons x xs ih =>
    cases hmem with
    | head =>
      cases xs with
      | nil => simpa [joinWith] using hsub
      | cons y ys =>
        show substrB pat.data (l ++ sep ++ joinWith sep (y :: ys)).data = true
        rw [string_append_data, string_append_data]
        exact substrB_append_left _ _ _ (substrB_append_left _ _ _ hsub)
    | tail _ hmem =>
      have hx := ih hmem
      cases xs with
      | nil => cases hmem
      | cons y ys =>
        show substrB pat.data (x ++ sep ++ joinWith sep (y :: ys)).data = true
        rw [string_append_data, string_append_data, List.append_assoc]
        exact substrB_append_right _ _ _ (substrB_append_right _ _ _ hx)

/-- A pattern inside a member line is inside the rendered report. -/
lemma containsStr_of_line (data : Rec) (l pat : String)
    (hne : ¬ data = emptyRec)
    (hmem : l ∈ reportLines data) (hsub : containsStr l pat = true) :
    containsStr (format_report data) pat = true := by
  unfold format_report
  rw [if_neg hne]
  exact substrB_joinWith _ _ _ _ hmem hsub

/-- The record that only carries a term name, used to exhibit the inline
defaults of the renderer. -/
def minimalRec : Rec := { term := some "x" }

/-- C4.  `format_report` is deterministic and total: it is a pure function
of the input record (rendering twice gives the same text), the falsy
empty dict yields the "No data available" text, and missing optional
fields never raise: the inline defaults ("N/A") are substituted, as the
one-field record shows. -/
theorem format_report_pure :
    (∀ d : Rec, format_report d = format_report d) ∧
    format_report emptyRec = "No data available" ∧
    containsStr (format_report minimalRec) "Term 術語: x" = true ∧
    containsStr (format_report minimalRec) "Domain 領域: N/A" = true ∧
    containsStr (format_report minimalRec) "Prediction: N/A" = true := by
  refine ⟨fun d => rfl, rfl, ?_, ?_, ?_⟩
  · exact containsStr_of_line _ ("📌 Term 術語: " ++ minimalRec.term.getD "N/A") _
      (by decide) (by decide) (by decide)
  · exact containsStr_of_line _ ("🏷️  Domain 領域: " ++ minimalRec.domain.getD "N/A") _
      (by decide) (by decide) (by decide)
  · exact containsStr_of_line _ ("\nPrediction: " ++ minimalRec.future_prediction.getD "N/A") _
      (by decide) (by decide) (by decide)

/-- C6.  On the demo term "buddha" the report carries the domain line
"Domain 領域: religion / philosophy" and renders exactly six snapshot
entries (six report lines carry the per-snapshot "| Frequency:" marker,
one per stored snapshot); on a term absent from the store, with no
producer configured, the output is the literal miss message naming the
term, an annotated placeholder figure, three empty figures and an empty
JSON string. -/
theorem buddha_and_miss_examples :
    containsStr (analyze_term none "buddha" "general").1
      "Domain 領域: religion / philosophy" = true ∧
    ((reportLines buddhaRec).countP
      (fun l => containsStr l "| Frequency:") = 6 ∧
     (buddhaRec.snapshots.getD []).length = 6) ∧
    analyze_term none "xyzzynotaterm" "general" =
      ("⚠️ No data for 'xyzzynotaterm'. Try demo terms: buddha, computer, virus, cloud, mouse\n\n" ++
         "Or set your API key to analyze custom terms.",
       Fig.annot "No data for 'xyzzynotaterm'",
       Fig.empty, Fig.empty, Fig.empty, "") := by
  refine ⟨?_, ⟨by decide, by decide⟩, rfl⟩
  show containsStr (format_report buddhaRec) _ = true
  exact containsStr_of_line _ ("🏷️  Domain 領域: " ++ buddhaRec.domain.getD "N/A") _
    (by decide) (by decide) (by decide)


/-! ### Normalization lemmas for the demo lookup -/

lemma space_toLowerC (c : Char) (h : isSpaceC c = true) : toLowerC c = c := by
  simp only [isSpaceC, Bool.or_eq_true, decide_eq_true_eq] at h
  rcases h with ((((h | h) | h) | h) | h) | h <;> subst h <;> decide

lemma no_space_of_lower (u t : String) (h : lowerString u = t)
    (ht : t.data.all (fun c => !isSpaceC c) = true) :
    u.data.all (fun c => !isSpaceC c) = true := by
  rw [List.all_eq_true] at ht ⊢
  intro c hc
  have hmem : toLowerC c ∈ t.data := by
    rw [← h]
    exact List.mem_map_of_mem toLowerC hc
  have hlow := ht _ hmem
  by_cases hs : isSpaceC c = true
  · rw [space_toLowerC c hs] at hlow
    simp [hs] at hlow
  · simpa using hs

lemma dropWhile_of_all_neg (p : Char → Bool) (l : List Char)
    (h : l.all (fun c => !p c) = true) : l.dropWhile p = l := by
  cases l with
  | nil => rfl
  | cons c t =>
    simp only [List.all_cons, Bool.and_eq_true, Bool.not_eq_true'] at h
    simp [List.dropWhile, h.1]

lemma trim_of_no_space (s : String) (h : s.data.all (fun c => !isSpaceC c) = true) :
    trimString s = s := by
  have h1 : s.data.dropWhile isSpaceC = s.data := dropWhile_of_all_neg _ _ h
  have h2 : s.data.reverse.all (fun c => !isSpaceC c) = true := by
    rw [List.all_eq_true] at h ⊢
    intro c hc
    exact h c (List.mem_reverse.mp hc)
  show String.mk (((s.data.dropWhile isSpaceC).reverse.dropWhile isSpaceC).reverse) = s
  rw [h1, dropWhile_of_all_neg _ _ h2, List.reverse_reverse]

/-- Every key of the demo store is nonempty, lowercase and whitespace-free. -/
lemma lookupDemo_facts (t : String) (d : Rec) (h : lookupDemo t = some d) :
    t.data.all (fun c => !isSpaceC c) = true ∧ lowerString t = t ∧ ¬ t = "" := by
  by_cases h1 : t = "buddha"
  · subst h1; exact ⟨by decide, by decide, by decide⟩
  by_cases h2 : t = "computer"
  · subst h2; exact ⟨by decide, by decide, by decide⟩
  by_cases h3 : t = "virus"
  · subst h3; exact ⟨by decide, by decide, by decide⟩
  by_cases h4 : t = "cloud"
  · subst h4; exact ⟨by decide, by decide, by decide⟩
  by_cases h5 : t = "mouse"
  · subst h5; exact ⟨by decide, by decide, by decide⟩
  exfalso
  have : lookupDemo t = none := by
    simp [lookupDemo, DEMO_DATA, List.lookup, beq_eq_false_iff_ne.mpr h1,
      beq_eq_false_iff_ne.mpr h2, beq_eq_false_iff_ne.mpr h3,
      beq_eq_false_iff_ne.mpr h4, beq_eq_false_iff_ne.mpr h5]
  rw [this] at h
  cases h

/-- C1.  For every store term `t` and every letter-casing `u` of it, the
lookup in `analyze_term` finds exactly the stored record `d`, and the
report and charts returned are the ones produced from `d`
(`successOutput d`); the result does not depend on the casing of the
query. -/
theorem analyze_term_case_insensitive
    (api : Option (String → String → Option Rec)) (dom u t : String) (d : Rec)
    (hcase : lowerString u = t) (hfind : lookupDemo t = some d) :
    analyze_term api u dom = successOutput d ∧
    analyze_term api u dom = analyze_term api t dom := by
  obtain ⟨hsp, hlow, hne⟩ := lookupDemo_facts t d hfind
  have husp : u.data.all (fun c => !isSpaceC c) = true := no_space_of_lower u t hcase hsp
  have htrimu : trimString u = u := trim_of_no_space u husp
  have hune : ¬ u = "" := by
    intro h
    subst h
    exact hne hcase.symm
  have hmain : analyze_term api u dom = successOutput d := by
    unfold analyze_term
    rw [if_neg (not_or.mpr ⟨hune, fun h => hune (htrimu ▸ h)⟩)]
    rw [htrimu, hcase, hfind]
  have htrimt : trimString t = t := trim_of_no_space t hsp
  have hother : analyze_term api t dom = successOutput d := by
    unfold analyze_term
    rw [if_neg (not_or.mpr ⟨hne, fun h => hne (htrimt ▸ h)⟩)]
    rw [htrimt, hlow, hfind]
  exact ⟨hmain, hmain.trans hother.symm⟩

/-- Witness for C1 at the cased query "BuDdHa". -/
theorem analyze_term_case_insensitive_witness :
    analyze_term none "BuDdHa" "general" = successOutput buddhaRec ∧
    analyze_term none "BuDdHa" "general" = analyze_term none "buddha" "general" :=
  analyze_term_case_insensitive none "general" "BuDdHa" "buddha" buddhaRec
    (by decide) rfl

/-- C9.  The query is stripped of surrounding whitespace before the
lowercased lookup, so a store term surrounded by spaces still hits the
stored entry; a whitespace-only (or empty) term is rejected up front with
the error tuple (error message, four bare figures, empty JSON), without
raising. -/
theorem analyze_term_trims_whitespace :
    (∀ (api : Option (String → String → Option Rec)) (dom u t : String) (d : Rec),
       lowerString (trimString u) = t → lookupDemo t = some d →
       analyze_term api u dom = successOutput d) ∧
    (∀ (api : Option (String → String → Option Rec)) (dom s : String),
       trimString s = "" → analyze_term api s dom = emptyTermOutput) := by
  constructor
  · intro api dom u t d hkey hfind
    have hne : ¬ t = "" := (lookupDemo_facts t d hfind).2.2
    have htne : ¬ trimString u = "" := by
      intro h
      apply hne
      rw [← hkey, h]
      rfl
    have hune : ¬ u = "" := by
      intro h
      apply htne
      rw [h]
      rfl
    unfold analyze_term
    rw [if_neg (not_or.mpr ⟨hune, htne⟩)]
    rw [hkey, hfind]
  · intro api dom s h
    unfold analyze_term
    rw [if_pos (Or.inr h)]

/-- Witness for C9: "  Buddha  " hits the buddha record, "   " is
rejected as an empty term. -/
theorem analyze_term_trims_whitespace_witness :
    analyze_term none "  Buddha  " "general" = successOutput buddhaRec ∧
    analyze_term none "   " "general" = emptyTermOutput :=
  ⟨analyze_term_trims_whitespace.1 none "general" "  Buddha  " "buddha" buddhaRec
     (by decide) rfl,
   analyze_term_trims_whitespace.2 none "general" "   " (by decide)⟩

/-- C3.  For every term that is nonempty after stripping and misses the
demo store, with no producer configured (`tracker is None`), the call
returns — without raising — the "no data" message naming the raw term,
an annotated placeholder, three empty figures and an empty JSON string. -/
theorem analyze_term_unknown_term_miss (dom term : String)
    (hne : ¬ trimString term = "")
    (hmiss : lookupDemo (lowerString (trimString term)) = none) :
    analyze_term none term dom =
      ("⚠️ No data for '" ++ term ++ "'. Try demo terms: buddha, computer, virus, cloud, mouse\n\n" ++
         "Or set your API key to analyze custom terms.",
       Fig.annot ("No data for '" ++ term ++ "'"),
       Fig.empty, Fig.empty, Fig.empty, "") := by
  have hune : ¬ term = "" := by
    intro h
    apply hne
    rw [h]
    rfl
  unfold analyze_term
  rw [if_neg (not_or.mpr ⟨hune, hne⟩), hmiss]
  rfl

/-- Witness for C3 at the absent term "qwerty". -/
theorem analyze_term_unknown_term_miss_witness :
    analyze_term none "qwerty" "general" =
      ("⚠️ No data for '" ++ "qwerty" ++ "'. Try demo terms: buddha, computer, virus, cloud, mouse\n\n" ++
         "Or set your API key to analyze custom terms.",
       Fig.annot ("No data for '" ++ "qwerty" ++ "'"),
       Fig.empty, Fig.empty, Fig.empty, "") :=
  analyze_term_unknown_term_miss "general" "qwerty" (by decide) (by decide)


/-! ### C5: totality of the frequency-tier mapping -/

/-- C5.  The tier table of `create_frequency_chart` maps "high", "medium",
"low", "rare" to 4, 3, 2, 1, and every other string to the fallback
level 2, so the chart gets a defined numeric level for any tier string
without raising — as the chart built over an unrecognized tier shows. -/
theorem freq_tier_mapping_total :
    (freqLevelRaw "high" = 4 ∧ freqLevelRaw "medium" = 3 ∧
     freqLevelRaw "low" = 2 ∧ freqLevelRaw "rare" = 1) ∧
    create_frequency_chart
        { emptyRec with snapshots := some [{ emptySnap with frequency := some "UNRECOGNIZED" }] } =
      Fig.freqLine { title := "📈 Usage Frequency Over Time 使用頻率趨勢",
                     periods := [""], levels := [2] } ∧
    (∀ s : String, ¬ s = "high" → ¬ s = "medium" → ¬ s = "low" → ¬ s = "rare" →
       freqLevelRaw s = 2) := by
  refine ⟨by decide, by decide, ?_⟩
  intro s h1 h2 h3 h4
  unfold freqLevelRaw
  rw [if_neg h1, if_neg h2, if_neg h3, if_neg h4]

/-- Witness for C5: an arbitrary unrecognized tier gets level 2. -/
theorem freq_tier_mapping_total_witness : freqLevelRaw "viral" = 2 :=
  freq_tier_mapping_total.2.2 "viral" (by decide) (by decide) (by decide) (by decide)

/-! ### C7: the record producers never propagate a failure -/

/-- C7.  For every service reply, both record producers return the
not-found signal `none` — never an exception and never a partial record —
when the call itself raises, when the brace-delimited pattern finds no
match, or when the matched substring fails to parse; and a produced
record can only come from a successful call, a successful match and a
successful parse of that very reply (no retry, no other source). -/
theorem producer_failure_yields_none :
    (∀ (parse : String → Option Rec) (e : String),
       SimpleTermTracker.analyze_term true parse (.err e) = none) ∧
    (∀ parse text, braceExtract text = none →
       SimpleTermTracker.analyze_term true parse (.ok text) = none) ∧
    (∀ parse text sub, braceExtract text = some sub → parse sub = none →
       SimpleTermTracker.analyze_term true parse (.ok text) = none) ∧
    (∀ (client : Bool) parse outcome d,
       SimpleTermTracker.analyze_term client parse outcome = some d →
       client = true ∧ ∃ text sub, outcome = .ok text ∧
         braceExtract text = some sub ∧ parse sub = some d) ∧
    (∀ (st : TrackerState) parse (e term dom : String),
       analyze_term_evolution st parse (.err e) term dom = (none, st)) ∧
    (∀ st parse text term dom, braceExtract text = none →
       analyze_term_evolution st parse (.ok text) term dom = (none, st)) ∧
    (∀ st parse text sub term dom, braceExtract text = some sub → parse sub = none →
       analyze_term_evolution st parse (.ok text) term dom = (none, st)) := by
  refine ⟨fun parse e => rfl, ?_, ?_, ?_, fun st parse e term dom => rfl, ?_, ?_⟩
  · intro parse text h
    simp [SimpleTermTracker.analyze_term, h]
  · intro parse text sub h hp
    simp [SimpleTermTracker.analyze_term, h, hp]
  · intro client parse outcome d h
    cases client with
    | false => simp [SimpleTermTracker.analyze_term] at h
    | true =>
      refine ⟨rfl, ?_⟩
      cases outcome with
      | err e => simp [SimpleTermTracker.analyze_term] at h
      | ok text =>
        refine ⟨text, ?_⟩
        unfold SimpleTermTracker.analyze_term at h
        simp only [Bool.not_true, Bool.false_eq_true, if_false] at h
        cases hb : braceExtract text with
        | none => rw [hb] at h; cases h
        | some sub => rw [hb] at h; exact ⟨sub, rfl, rfl, h⟩
  · intro st parse text term dom h
    simp [analyze_term_evolution, h]
  · intro st parse text sub term dom h hp
    simp [analyze_term_evolution, h, hp]

/-- Witness for C7: a reply without a structured block yields `none`. -/
theorem producer_failure_yields_none_witness :
    SimpleTermTracker.analyze_term true (fun _ => none)
      (ServiceOutcome.ok "no structured reply") = none :=
  producer_failure_yields_none.2.1 (fun _ => none) "no structured reply" (by decide)

/-! ### C8: the cache is write-only and append-only -/

lemma lookup_assocUpdate_isSome (db : List (String × TermEvolutionRecord))
    (k0 k : String) (v0 v : TermEvolutionRecord) (h : db.lookup k = some v) :
    ∃ v', (assocUpdate db k0 v0).lookup k = some v' := by
  induction db with
  | nil => cases h
  | cons p rest ih =>
    obtain ⟨k1, v1⟩ := p
    by_cases hk10 : k1 = k0
    · rw [show assocUpdate ((k1, v1) :: rest) k0 v0 = (k1, v0) :: rest by
        simp [assocUpdate, hk10]]
      cases hbeq : (k == k1) with
      | true => exact ⟨v0, by simp [List.lookup, hbeq]⟩
      | false =>
        simp only [List.lookup, hbeq] at h
        exact ⟨v, by simp [List.lookup, hbeq, h]⟩
    · rw [show assocUpdate ((k1, v1) :: rest) k0 v0 = (k1, v1) :: assocUpdate rest k0 v0 by
        simp [assocUpdate, hk10]]
      cases hbeq : (k == k1) with
      | true => exact ⟨v1, by simp [List.lookup, hbeq]⟩
      | false =>
        simp only [List.lookup, hbeq] at h
        obtain ⟨v', hv'⟩ := ih h
        exact ⟨v', by simp [List.lookup, hbeq, hv']⟩

/-- C8.  The in-process cache `evolution_database` is write-only and
append-only: the produced record never depends on the cache contents, a
successful `analyze_term_evolution` performs exactly the dict assignment
`evolution_database[term] = record`, a failed one leaves the state
untouched, and no run ever removes a cached key.  (The other operations
of the class — the comparison, neologism, timeline and serialization
helpers such as `generate_timeline_data` — take only a record and no
database, so they cannot read the cache either.) -/
theorem cache_append_only :
    (∀ (st1 st2 : TrackerState) (parse : String → Option Rec) outcome (term dom : String),
       (analyze_term_evolution st1 parse outcome term dom).1 =
       (analyze_term_evolution st2 parse outcome term dom).1) ∧
    (∀ (st : TrackerState) parse outcome (term dom : String) r st',
       analyze_term_evolution st parse outcome term dom = (some r, st') →
       st'.evolution_database = assocUpdate st.evolution_database term r) ∧
    (∀ (st : TrackerState) parse outcome (term dom : String) st',
       analyze_term_evolution st parse outcome term dom = (none, st') → st' = st) ∧
    (∀ (st : TrackerState) parse outcome (term dom : String) (k : String) v,
       dbLookup st k = some v →
       ∃ v', dbLookup (analyze_term_evolution st parse outcome term dom).2 k = some v') := by
  refine ⟨?_, ?_, ?_, ?_⟩
  · intro st1 st2 parse outcome term dom
    cases outcome with
    | err e => rfl
    | ok text =>
      cases hb : braceExtract text with
      | none => simp [analyze_term_evolution, hb]
      | some sub =>
        cases hp : parse sub with
        | none => simp [analyze_term_evolution, hb, hp]
        | some data => simp [analyze_term_evolution, hb, hp]
  · intro st parse outcome term dom r st' h
    cases outcome with
    | err e => simp [analyze_term_evolution] at h
    | ok text =>
      cases hb : braceExtract text with
      | none => rw [show analyze_term_evolution st parse (.ok text) term dom = (none, st) by
          simp [analyze_term_evolution, hb]] at h; cases h
      | some sub =>
        cases hp : parse sub with
        | none => rw [show analyze_term_evolution st parse (.ok text) term dom = (none, st) by
            simp [analyze_term_evolution, hb, hp]] at h; cases h
        | some data =>
          rw [show analyze_term_evolution st parse (.ok text) term dom =
              (some (buildRecord term dom data),
               ⟨assocUpdate st.evolution_database term (buildRecord term dom data)⟩) by
            simp [analyze_term_evolution, hb, hp]] at h
          obtain ⟨h1, h2⟩ := Prod.mk.injEq .. ▸ h
          cases h1
          rw [← h2]
  · intro st parse outcome term dom st' h
    cases outcome with
    | err e =>
      obtain ⟨-, h2⟩ := Prod.mk.injEq .. ▸ h
      exact h2.symm
    | ok text =>
      cases hb : braceExtract text with
      | none =>
        rw [show analyze_term_evolution st parse (.ok text) term dom = (none, st) by
          simp [analyze_term_evolution, hb]] at h
        obtain ⟨-, h2⟩ := Prod.mk.injEq .. ▸ h
        exact h2.symm
      | some sub =>
        cases hp : parse sub with
        | none =>
          rw [show analyze_term_evolution st parse (.ok text) term dom = (none, st) by
            simp [analyze_term_evolution, hb, hp]] at h
          obtain ⟨-, h2⟩ := Prod.mk.injEq .. ▸ h
          exact h2.symm
        | some data =>
          rw [show analyze_term_evolution st parse (.ok text) term dom =
              (some (buildRecord term dom data),
               ⟨assocUpdate st.evolution_database term (buildRecord term dom data)⟩) by
            simp [analyze_term_evolution, hb, hp]] at h
          obtain ⟨h1, -⟩ := Prod.mk.injEq .. ▸ h
          cases h1
  · intro st parse outcome term dom k v h
    cases outcome with
    | err e => exact ⟨v, h⟩
    | ok text =>
      cases hb : braceExtract text with
      | none => refine ⟨v, ?_⟩; simpa [analyze_term_evolution, hb] using h
      | some sub =>
        cases hp : parse sub with
        | none => refine ⟨v, ?_⟩; simpa [analyze_term_evolution, hb, hp] using h
        | some data =>
          have := lookup_assocUpdate_isSome st.evolution_database term k
            (buildRecord term dom data) v h
          simpa [analyze_term_evolution, hb, hp, dbLookup] using this

/-- Witness for C8: one successful run over the empty cache performs the
dict assignment on the cache. -/
theorem cache_append_only_witness :
    (analyze_term_evolution ⟨[]⟩ (fun _ => some emptyRec)
        (ServiceOutcome.ok "\x7b\x7d") "t" "g").2.evolution_database =
      assocUpdate [] "t" (buildRecord "t" "g" emptyRec) :=
  cache_append_only.2.1 ⟨[]⟩ (fun _ => some emptyRec) (ServiceOutcome.ok "\x7b\x7d")
    "t" "g" (buildRecord "t" "g" emptyRec)
    (analyze_term_evolution ⟨[]⟩ (fun _ => some emptyRec)
        (ServiceOutcome.ok "\x7b\x7d") "t" "g").2 rfl


/-! ### Lemmas about the two regex searches -/

lemma takeWhile_all (p : Char → Bool) (x : List Char) (hx : x.all p = true) :
    x.takeWhile p = x := by
  induction x with
  | nil => rfl
  | cons c t ih =>
    simp only [List.all_cons, Bool.and_eq_true] at hx
    simp [List.takeWhile_cons, hx.1, ih hx.2]

lemma takeWhile_append_all (p : Char → Bool) (x y : List Char) (hx : x.all p = true) :
    (x ++ y).takeWhile p = x ++ y.takeWhile p := by
  induction x with
  | nil => simp
  | cons c t ih =>
    simp only [List.all_cons, Bool.and_eq_true] at hx
    simp [List.takeWhile_cons, hx.1, ih hx.2]

lemma takeWhile_append_stop (p : Char → Bool) (x y : List Char) (hx : ¬ x.all p = true) :
    (x ++ y).takeWhile p = x.takeWhile p := by
  induction x with
  | nil => simp at hx
  | cons c t ih =>
    by_cases hc : p c = true
    · have ht : ¬ t.all p = true := by
        intro hall
        exact hx (by simp [List.all_cons, hc, hall])
      simp [List.takeWhile_cons, hc, ih ht]
    · simp [List.takeWhile_cons, hc]

lemma takeWhile_nil_of_all_neg (p : Char → Bool) (l : List Char)
    (h : l.all (fun c => !p c) = true) : l.takeWhile p = [] := by
  cases l with
  | nil => rfl
  | cons c t =>
    simp only [List.all_cons, Bool.and_eq_true, Bool.not_eq_true'] at h
    simp [List.takeWhile_cons, h.1]

lemma run3_append_not_all (x l : List Char) (hx : ¬ x.all isDigitC = true) :
    run3 (x ++ l) = run3 x := by
  unfold run3
  rw [takeWhile_append_stop _ _ _ hx]

lemma run3_append_all_nil (x l : List Char) (hx : x.all isDigitC = true)
    (hl : l.takeWhile isDigitC = []) : run3 (x ++ l) = run3 x := by
  unfold run3
  rw [takeWhile_append_all _ _ _ hx, hl, List.append_nil, takeWhile_all _ _ hx]

lemma tw_length_le_append (p : Char → Bool) (x y : List Char) :
    (x.takeWhile p).length ≤ ((x ++ y).takeWhile p).length := by
  by_cases hall : x.all p = true
  · rw [takeWhile_append_all _ _ _ hall, takeWhile_all _ _ hall]
    simp
  · rw [takeWhile_append_stop _ _ _ hall]

lemma run3_mono (x y : List Char) (h : run3 x = true) : run3 (x ++ y) = true := by
  have := tw_length_le_append isDigitC x y
  simp only [run3, decide_eq_true_eq] at h ⊢
  omega

lemma run4_false_of_run3_false (x : List Char) (h : run3 x = false) : run4 x = false := by
  simp only [run3, decide_eq_false_iff_not] at h
  simp only [run4, decide_eq_false_iff_not]
  omega

lemma noRun3_run3 (l : List Char) (h : noRun3 l = true) : run3 l = false := by
  cases l with
  | nil => rfl
  | cons c t =>
    simp only [noRun3, Bool.and_eq_true, Bool.not_eq_true'] at h
    exact h.1

lemma noRun3_tail (c : Char) (l : List Char) (h : noRun3 (c :: l) = true) :
    noRun3 l = true := by
  simp only [noRun3, Bool.and_eq_true] at h
  exact h.2

lemma noRun3_append_left (x y : List Char) (h : noRun3 (x ++ y) = true) :
    noRun3 x = true := by
  induction x with
  | nil => rfl
  | cons c t ih =>
    rw [List.cons_append] at h
    have h1 := noRun3_run3 _ h
    have h2 := noRun3_tail _ _ h
    have hr : run3 (c :: t) = false := by
      by_cases hrt : run3 (c :: t) = true
      · rw [← List.cons_append] at h1
        rw [run3_mono _ _ hrt] at h1
        cases h1
      · simpa using hrt
    simp [noRun3, hr, ih h2]

lemma mem_of_getLast?C (l : List Char) (c : Char) (h : l.getLast? = some c) : c ∈ l := by
  induction l with
  | nil => cases h
  | cons a t ih =>
    cases t with
    | nil =>
      simp only [List.getLast?_singleton, Option.some.injEq] at h
      simp [h]
    | cons b t' =>
      rw [List.getLast?_cons_cons] at h
      exact List.mem_cons_of_mem _ (ih h)

lemma exists_append_getLast (l : List Char) (c : Char) (h : l.getLast? = some c) :
    ∃ l0, l = l0 ++ [c] := by
  induction l with
  | nil => cases h
  | cons a t ih =>
    cases t with
    | nil =>
      simp only [List.getLast?_singleton, Option.some.injEq] at h
      exact ⟨[], by rw [h]; rfl⟩
    | cons b t' =>
      rw [List.getLast?_cons_cons] at h
      obtain ⟨l0, hl0⟩ := ih h
      exact ⟨a :: l0, by rw [List.cons_append, ← hl0]⟩

lemma getLast?_cons_ne (c : Char) (l : List Char) (h : l ≠ []) :
    (c :: l).getLast? = l.getLast? := by
  cases l with
  | nil => exact absurd rfl h
  | cons b t => rw [List.getLast?_cons_cons]

lemma getLast?_isSome_of_ne (l : List Char) (h : l ≠ []) : ∃ d, l.getLast? = some d := by
  induction l with
  | nil => exact absurd rfl h
  | cons a t ih =>
    cases t with
    | nil => exact ⟨a, by simp⟩
    | cons b t' =>
      obtain ⟨d, hd⟩ := ih (by simp)
      exact ⟨d, by rw [List.getLast?_cons_cons]; exact hd⟩

lemma matchHere_none (c : Char) (cs : List Char)
    (h1 : c = '-' → run3 cs = false) (h2 : run3 (c :: cs) = false) :
    matchHere (c :: cs) = none := by
  simp only [matchHere]
  by_cases hc : c = '-'
  · rw [if_neg (by simp [h1 hc]), if_neg (by simp [h2])]
  · rw [if_neg (by simp [hc]), if_neg (by simp [h2])]

lemma appFind_cons_none (c : Char) (cs : List Char) (h : matchHere (c :: cs) = none) :
    appFind (c :: cs) = appFind cs := by
  simp [appFind, h]

lemma appFind_cons_none' (c : Char) (cs : List Char) (n : Int)
    (h : matchHere (c :: cs) = some n) : appFind (c :: cs) = some n := by
  simp [appFind, h]

lemma libFind_cons_none (c : Char) (cs : List Char) (h : run4 (c :: cs) = false) :
    libFind (c :: cs) = libFind cs := by
  simp [libFind, h]

/-- No nonempty all-digit region can end where a region with a non-digit
last character ends. -/
lemma not_all_digit_of_last (x : List Char) (hne : x ≠ [])
    (h2 : ∀ c, x.getLast? = some c → isDigitC c = false) :
    ¬ x.all isDigitC = true := by
  intro hall
  obtain ⟨d, hd⟩ := getLast?_isSome_of_ne x hne
  have hdig := List.all_eq_true.mp hall d (mem_of_getLast?C _ _ hd)
  rw [h2 d hd] at hdig
  cases hdig

/-- Skipping a match-free region: `a` has no three consecutive digits, its
last character is not a digit, and, when it is a hyphen, `l` does not
start a three-digit run. -/
lemma appFind_skip1 (a l : List Char) :
    noRun3 a = true →
    (∀ c, a.getLast? = some c → isDigitC c = false) →
    (∀ c, a.getLast? = some c → c = '-' → run3 l = false) →
    appFind (a ++ l) = appFind l := by
  induction a with
  | nil => intro _ _ _; rfl
  | cons c a' ih =>
    intro h1 h2 h3
    have h1' := noRun3_tail _ _ h1
    have hx2 : run3 ((c :: a') ++ l) = false := by
      by_cases hall : (c :: a').all isDigitC = true
      · exact absurd hall (not_all_digit_of_last _ (by simp) h2)
      · rw [run3_append_not_all _ _ hall]
        exact noRun3_run3 _ h1
    have hx1 : c = '-' → run3 (a' ++ l) = false := by
      intro hc
      by_cases ha' : a' = []
      · subst ha'
        simpa using h3 c (by simp) hc
      · by_cases hall : a'.all isDigitC = true
        · exact absurd hall (not_all_digit_of_last _ ha'
            (fun c' hc' => h2 c' (by rw [getLast?_cons_ne _ _ ha']; exact hc')))
        · rw [run3_append_not_all _ _ hall]
          exact noRun3_run3 _ h1'
    rw [List.cons_append] at hx2
    have hm : matchHere (c :: (a' ++ l)) = none := matchHere_none _ _ hx1 hx2
    rw [List.cons_append, appFind_cons_none _ _ hm]
    refine ih h1' ?_ ?_
    · intro c' hc'
      by_cases ha' : a' = []
      · rw [ha'] at hc'; cases hc'
      · exact h2 c' (by rw [getLast?_cons_ne _ _ ha']; exact hc')
    · intro c' hc' hc'eq
      by_cases ha' : a' = []
      · rw [ha'] at hc'; cases hc'
      · exact h3 c' (by rw [getLast?_cons_ne _ _ ha']; exact hc') hc'eq

/-- Skipping a run-free region before a lookahead that starts with a
non-digit. -/
lemma appFind_skip2 (a l : List Char) (hl : l.takeWhile isDigitC = []) :
    noRun3 a = true → appFind (a ++ l) = appFind l := by
  induction a with
  | nil => intro _; rfl
  | cons c a' ih =>
    intro h1
    have h1' := noRun3_tail _ _ h1
    have hx2 : run3 ((c :: a') ++ l) = false := by
      by_cases hall : (c :: a').all isDigitC = true
      · rw [run3_append_all_nil _ _ hall hl]
        exact noRun3_run3 _ h1
      · rw [run3_append_not_all _ _ hall]
        exact noRun3_run3 _ h1
    have hx1 : c = '-' → run3 (a' ++ l) = false := by
      intro _
      by_cases hall : a'.all isDigitC = true
      · rw [run3_append_all_nil _ _ hall hl]
        exact noRun3_run3 _ h1'
      · rw [run3_append_not_all _ _ hall]
        exact noRun3_run3 _ h1'
    rw [List.cons_append] at hx2
    have hm : matchHere (c :: (a' ++ l)) = none := matchHere_none _ _ hx1 hx2
    rw [List.cons_append, appFind_cons_none _ _ hm]
    exact ih h1'

lemma libFind_skip (a l : List Char) :
    noRun3 a = true →
    (∀ c, a.getLast? = some c → isDigitC c = false) →
    libFind (a ++ l) = libFind l := by
  induction a with
  | nil => intro _ _; rfl
  | cons c a' ih =>
    intro h1 h2
    have h1' := noRun3_tail _ _ h1
    have hx : run3 ((c :: a') ++ l) = false := by
      by_cases hall : (c :: a').all isDigitC = true
      · exact absurd hall (not_all_digit_of_last _ (by simp) h2)
      · rw [run3_append_not_all _ _ hall]
        exact noRun3_run3 _ h1
    have hx4 : run4 ((c :: a') ++ l) = false := run4_false_of_run3_false _ hx
    rw [List.cons_append] at hx4
    rw [List.cons_append, libFind_cons_none _ _ hx4]
    refine ih h1' ?_
    intro c' hc'
    by_cases ha' : a' = []
    · rw [ha'] at hc'; cases hc'
    · exact h2 c' (by rw [getLast?_cons_ne _ _ ha']; exact hc')

lemma appFind_at_run (r b : List Char) (hr : r.all isDigitC = true) (h3 : 3 ≤ r.length) :
    appFind (r ++ b) =
      some ((digitsToNat ((r ++ b.takeWhile isDigitC).take 4) : Nat) : Int) := by
  cases r with
  | nil => simp at h3
  | cons c r' =>
    have hcd : isDigitC c = true := by
      have := List.all_eq_true.mp hr c (by simp)
      simpa using this
    have hc : ¬ c = '-' := by
      intro h
      rw [h] at hcd
      exact absurd hcd (by decide)
    have htw : ((c :: r') ++ b).takeWhile isDigitC = (c :: r') ++ b.takeWhile isDigitC :=
      takeWhile_append_all _ _ _ hr
    have hrun : run3 ((c :: r') ++ b) = true := by
      simp only [run3, decide_eq_true_eq, htw]
      simp only [List.length_append, List.length_cons]
      simp only [List.length_cons] at h3
      omega
    rw [List.cons_append] at hrun
    have hm : matchHere (c :: (r' ++ b)) = some ((val4 (c :: (r' ++ b)) : Nat) : Int) := by
      simp only [matchHere]
      rw [if_neg (by simp [hc]), if_pos (by simp [hrun])]
    rw [List.cons_append, appFind_cons_none' _ _ _ hm, val4, ← List.cons_append, htw]

lemma appFind_at_minus (r b : List Char) (hr : r.all isDigitC = true) (h3 : 3 ≤ r.length) :
    appFind ('-' :: (r ++ b)) =
      some (-((digitsToNat ((r ++ b.takeWhile isDigitC).take 4) : Nat) : Int)) := by
  have htw : (r ++ b).takeWhile isDigitC = r ++ b.takeWhile isDigitC :=
    takeWhile_append_all _ _ _ hr
  have hrun : run3 (r ++ b) = true := by
    simp only [run3, decide_eq_true_eq, htw, List.length_append]
    omega
  have hm : matchHere ('-' :: (r ++ b)) = some (-((val4 (r ++ b) : Nat) : Int)) := by
    simp only [matchHere]
    rw [if_pos (by simp [hrun])]
  rw [appFind_cons_none' _ _ _ hm, val4, htw]

lemma libFind_at_run (r b : List Char) (hr : r.all isDigitC = true) (h4 : 4 ≤ r.length) :
    libFind (r ++ b) = some (digitsToNat (r.take 4)) := by
  cases r with
  | nil => simp at h4
  | cons c r' =>
    have htw : ((c :: r') ++ b).takeWhile isDigitC = (c :: r') ++ b.takeWhile isDigitC :=
      takeWhile_append_all _ _ _ hr
    have hrun : run4 ((c :: r') ++ b) = true := by
      simp only [run4, decide_eq_true_eq, htw]
      simp only [List.length_append, List.length_cons]
      simp only [List.length_cons] at h4
      omega
    rw [List.cons_append] at hrun
    rw [List.cons_append,
      show libFind (c :: (r' ++ b)) = some (val4 (c :: (r' ++ b))) by simp [libFind, hrun]]
    rw [val4, ← List.cons_append, htw, List.take_append_of_le_length h4]

/-! ### Digit-free labels reach only the keyword table -/

lemma appFind_none_of_digitfree (l : List Char)
    (h : l.all (fun c => !isDigitC c) = true) : appFind l = none := by
  induction l with
  | nil => rfl
  | cons c t ih =>
    simp only [List.all_cons, Bool.and_eq_true] at h
    have htw : t.takeWhile isDigitC = [] := takeWhile_nil_of_all_neg _ _ h.2
    have hr3t : run3 t = false := by
      simp [run3, htw]
    have hcd : isDigitC c = false := by simpa using h.1
    have hr3 : run3 (c :: t) = false := by
      simp [run3, List.takeWhile_cons, hcd]
    have hm : matchHere (c :: t) = none := matchHere_none _ _ (fun _ => hr3t) hr3
    rw [appFind_cons_none _ _ hm]
    exact ih h.2

lemma libFind_none_of_digitfree (l : List Char)
    (h : l.all (fun c => !isDigitC c) = true) : libFind l = none := by
  induction l with
  | nil => rfl
  | cons c t ih =>
    simp only [List.all_cons, Bool.and_eq_true] at h
    have hcd : isDigitC c = false := by simpa using h.1
    have hr4 : run4 (c :: t) = false := by
      simp [run4, List.takeWhile_cons, hcd]
    rw [libFind_cons_none _ _ hr4]
    exact ih h.2

lemma mem_of_startsWithL (hay pat : List Char) (h : startsWithL hay pat = true) :
    ∀ c ∈ pat, c ∈ hay := by
  induction pat generalizing hay with
  | nil => intro c hc; cases hc
  | cons d ds ih =>
    cases hay with
    | nil => simp [startsWithL] at h
    | cons x t =>
      simp only [startsWithL, Bool.and_eq_true, decide_eq_true_eq] at h
      intro c hc
      rcases List.mem_cons.mp hc with rfl | hc
      · rw [h.1]
        exact List.mem_cons_self _ _
      · exact List.mem_cons_of_mem _ (ih t h.2 c hc)

lemma mem_of_substrB (pat hay : List Char) (h : substrB pat hay = true) :
    ∀ c ∈ pat, c ∈ hay := by
  induction hay with
  | nil =>
    cases pat with
    | nil => intro c hc; cases hc
    | cons d ds => simp [substrB, startsWithL] at h
  | cons x t ih =>
    simp only [substrB, Bool.or_eq_true] at h
    cases h with
    | inl h => exact mem_of_startsWithL _ _ h
    | inr h =>
      intro c hc
      exact List.mem_cons_of_mem _ (ih h c hc)

lemma lookup_val_mem (l : List (Char × Char)) (k v : Char) (h : l.lookup k = some v) :
    v ∈ l.map Prod.snd := by
  induction l with
  | nil => cases h
  | cons p rest ih =>
    obtain ⟨k1, v1⟩ := p
    cases hbeq : (k == k1) with
    | true =>
      simp only [List.lookup, hbeq, Option.some.injEq] at h
      simp [← h]
    | false =>
      simp only [List.lookup, hbeq] at h
      simp [ih h]

lemma toLowerC_cases (c : Char) : toLowerC c = c ∨
    toLowerC c ∈ lowerTable.map Prod.snd := by
  unfold toLowerC
  cases h : lowerTable.lookup c with
  | none => left; rfl
  | some d =>
    right
    simpa using lookup_val_mem _ _ _ h

lemma digitfree_lower (l : List Char) (h : l.all (fun c => !isDigitC c) = true) :
    (lowerList l).all (fun c => !isDigitC c) = true := by
  rw [List.all_eq_true] at h ⊢
  intro c hc
  obtain ⟨c0, hc0, rfl⟩ := List.mem_map.mp hc
  have h0 := h c0 hc0
  rcases toLowerC_cases c0 with heq | hmem
  · rw [heq]
    exact h0
  · have hnd := (by decide : ∀ d ∈ lowerTable.map Prod.snd, isDigitC d = false) _ hmem
    simp [hnd]

lemma substrB_digit_false (key hay : List Char)
    (hkey : ∃ c ∈ key, isDigitC c = true)
    (hhay : hay.all (fun c => !isDigitC c) = true) :
    substrB key hay = false := by
  by_contra h
  rw [Bool.not_eq_false] at h
  obtain ⟨c, hc, hcd⟩ := hkey
  have hmem := mem_of_substrB _ _ h c hc
  rw [List.all_eq_true] at hhay
  have h2 := hhay c hmem
  rw [hcd] at h2
  cases h2

/-! ### C2 and C10: the two year extractors -/

/-- C2, as amended.  If a period label splits as `a ++ r ++ b` where `r`
is its first run of at least three digits (no digit run of length three
in `a`, `a` does not end in a digit, and when `r` has exactly three
digits the rest `b` does not start with one), then `extract_year`
returns the number formed by the first four digits of `r` — negated when
a hyphen immediately precedes `r`.  On a label with no digits at all,
only the "present" (2023) and "bce" (-400) keywords of the table can
fire — the decade keys all contain digits — and 2000 is returned when
neither occurs in the lowercased label. -/
theorem extract_year_amended :
    (∀ (s : String) (a r b : List Char),
       s.data = a ++ r ++ b →
       r.all isDigitC = true → 3 ≤ r.length →
       noRun3 a = true →
       (∀ c, a.getLast? = some c → isDigitC c = false) →
       (r.length = 3 → b.takeWhile isDigitC = []) →
       extract_year s =
         (if a.getLast? = some '-' then -((digitsToNat (r.take 4) : Nat) : Int)
          else ((digitsToNat (r.take 4) : Nat) : Int))) ∧
    (∀ s : String, s.data.all (fun c => !isDigitC c) = true →
       extract_year s =
         (if substrB "present".data (lowerList s.data) = true then 2023
          else if substrB "bce".data (lowerList s.data) = true then -400
          else 2000)) := by
  constructor
  · intro s a r b hs hr h3 hnr hlast hb
    have htake : (r ++ b.takeWhile isDigitC).take 4 = r.take 4 := by
      rcases Nat.lt_or_ge r.length 4 with h4 | h4
      · have h3' : r.length = 3 := by omega
        rw [hb h3', List.append_nil]
      · rw [List.take_append_of_le_length h4]
    by_cases hminus : a.getLast? = some '-'
    · obtain ⟨a0, ha0⟩ := exists_append_getLast a '-' hminus
      have hnr0 : noRun3 a0 = true := noRun3_append_left a0 _ (ha0 ▸ hnr)
      have hsd : s.data = a0 ++ ('-' :: (r ++ b)) := by
        rw [hs, ha0, List.append_assoc, List.append_assoc]
        rfl
      have happ : appFind s.data =
          some (-((digitsToNat ((r ++ b.takeWhile isDigitC).take 4) : Nat) : Int)) := by
        rw [hsd, appFind_skip2 a0 _ (by simp [List.takeWhile_cons,
              show isDigitC '-' = false from rfl]) hnr0,
          appFind_at_minus r b hr h3]
      unfold extract_year
      rw [happ, if_pos hminus, htake]
    · have hsd : s.data = a ++ (r ++ b) := by rw [hs, List.append_assoc]
      have happ : appFind s.data =
          some ((digitsToNat ((r ++ b.takeWhile isDigitC).take 4) : Nat) : Int) := by
        rw [hsd, appFind_skip1 a _ hnr hlast
            (fun c hc hceq => absurd (hceq ▸ hc) hminus),
          appFind_at_run r b hr h3]
      unfold extract_year
      rw [happ, if_neg hminus, htake]
  · intro s h
    unfold extract_year
    rw [appFind_none_of_digitfree _ h]
    have hlow := digitfree_lower s.data h
    have k1 : substrB "pre-1900".data (lowerList s.data) = false :=
      substrB_digit_false _ _ ⟨'1', by decide, by decide⟩ hlow
    have k2 : substrB "1900".data (lowerList s.data) = false :=
      substrB_digit_false _ _ ⟨'1', by decide, by decide⟩ hlow
    have k3 : substrB "1950".data (lowerList s.data) = false :=
      substrB_digit_false _ _ ⟨'1', by decide, by decide⟩ hlow
    have k4 : substrB "1980".data (lowerList s.data) = false :=
      substrB_digit_false _ _ ⟨'1', by decide, by decide⟩ hlow
    have k5 : substrB "2000".data (lowerList s.data) = false :=
      substrB_digit_false _ _ ⟨'2', by decide, by decide⟩ hlow
    have k6 : substrB "2010".data (lowerList s.data) = false :=
      substrB_digit_false _ _ ⟨'2', by decide, by decide⟩ hlow
    have k7 : substrB "2020".data (lowerList s.data) = false :=
      substrB_digit_false _ _ ⟨'2', by decide, by decide⟩ hlow
    unfold extractYearKeyword
    rw [k1, k2, k3, k4, k5, k6, k7]
    simp only [Bool.false_eq_true, if_false]

/-- Counterexample to C2 as stated: the demo label "Pre-1300" contains
the 3-4 digit number 1300, yet `extract_year` returns -1300, because the
leftmost `-?\d{3,4}` match swallows the hyphen of "Pre-" as a minus
sign. -/
theorem extract_year_hyphen_counterexample :
    "Pre-1300".data = "Pre-".data ++ "1300".data ++ [] ∧
    "1300".data.all isDigitC = true ∧ "1300".data.length = 4 ∧
    digitsToNat "1300".data = 1300 ∧
    extract_year "Pre-1300" = -1300 ∧ ¬ extract_year "Pre-1300" = 1300 := by
  refine ⟨by decide, by decide, by decide, by decide, by decide, by decide⟩

/-- Witness for C2 (amended): a label whose first digit run is clean on
the left gets that number, and a digit-free label falls back to the
keyword table ("bce" → -400). -/
theorem extract_year_amended_witness :
    extract_year "1984-2000" = 1984 ∧ extract_year "sometime in the bce era" = -400 := by
  constructor
  · have h := extract_year_amended.1 "1984-2000" [] "1984".data "-2000".data
      (by decide) (by decide) (by decide) (by decide)
      (fun c hc => by cases hc) (fun h3 => absurd h3 (by decide))
    exact h.trans (by decide)
  · have h := extract_year_amended.2 "sometime in the bce era" (by decide)
    exact h.trans (by decide)

/-- C10, as amended.  The two year extractors agree on every label whose
first digit run of length at least three has at least four digits and is
not immediately preceded by a hyphen: both return the number formed by
its first four digits.  (As stated — extensional equality everywhere —
the claim is false: see the counterexample.) -/
theorem extract_year_functions_agree (s : String) (a r b : List Char)
    (hs : s.data = a ++ r ++ b)
    (hr : r.all isDigitC = true) (h4 : 4 ≤ r.length)
    (hnr : noRun3 a = true)
    (hlast : ∀ c, a.getLast? = some c → isDigitC c = false)
    (hminus : ¬ a.getLast? = some '-') :
    extract_year s = ((digitsToNat (r.take 4) : Nat) : Int) ∧
    _extract_year s = ((digitsToNat (r.take 4) : Nat) : Int) := by
  have hsd : s.data = a ++ (r ++ b) := by rw [hs, List.append_assoc]
  constructor
  · have happ : appFind s.data =
        some ((digitsToNat ((r ++ b.takeWhile isDigitC).take 4) : Nat) : Int) := by
      rw [hsd, appFind_skip1 a _ hnr hlast
          (fun c hc hceq => absurd (hceq ▸ hc) hminus),
        appFind_at_run r b hr (by omega)]
    unfold extract_year
    rw [happ, List.take_append_of_le_length h4]
  · have hlib : libFind s.data = some (digitsToNat (r.take 4)) := by
      rw [hsd, libFind_skip a _ hnr hlast, libFind_at_run r b hr h4]
    unfold _extract_year
    rw [hlib]

/-- Counterexample to C10 as stated: on the label "present" the app's
extractor returns 2023 while the library's returns 2022, so the two
functions are not extensionally equal. -/
theorem extract_year_functions_disagree :
    extract_year "present" = 2023 ∧ _extract_year "present" = 2022 ∧
    ¬ extract_year "present" = _extract_year "present" := by
  refine ⟨by decide, by decide, by decide⟩

/-- Witness for C10 (amended) on the label "1950-1980". -/
theorem extract_year_functions_agree_witness :
    extract_year "1950-1980" = 1950 ∧ _extract_year "1950-1980" = 1950 := by
  have h := extract_year_functions_agree "1950-1980" [] "1950".data "-1980".data
    (by decide) (by decide) (by decide) (by decide) (fun c hc => by cases hc)
    (by decide)
  exact ⟨h.1.trans (by decide), h.2.trans (by decide)⟩


end TermTracker
